import Mathlib

/-!
# api-p3: REST handlers over the academic-records schema

A shallow embedding of the route modules `routes/instituicao.js`,
`routes/tipo_curso.js`, `routes/curso.js`, `routes/disciplinas.js`,
`routes/alunos.js`, `routes/professores.js` and `routes/cursa.js`, and of the
route mounting of `index.js`.

* A handler is a function from its inputs (path parameter, JSON body), the
  database state and, for every statement it may send to the pool, the error
  the driver raises for that statement (if any), to the HTTP response, the
  database state afterwards and the list of statements it sent.
* Path ids are integers and body fields carry the types the swagger blocks of
  the route modules document (`type: integer`, `type: string`); a field that
  is absent from the body (JavaScript `undefined`) or `null` is `none`.
* A statement that the driver rejects has no effect on the database.
* The result of a statement is the one its SQL text denotes on the tables.
  The table definitions are not part of the repository; by the data model
  every foreign key references an existing row and the database enforces it,
  so a `DELETE` of a row that a row of another table references is rejected.
  Any other rejection by the database (a constraint on an `INSERT` or
  `UPDATE`, a lost connection) is an error the driver raises.
-/

namespace ApiP3

/-! ## Rows of the tables -/

/-- Row of table `instituicao`. -/
structure Instituicao where
  id_instituicao : Int
  tx_sigla : Option String
  tx_descricao : Option String
deriving DecidableEq, Repr

/-- Row of table `tipo_curso`. -/
structure TipoCurso where
  id_tipo_curso : Int
  tx_descricao : Option String
deriving DecidableEq, Repr

/-- Row of table `curso`. -/
structure Curso where
  id_curso : Int
  id_instituicao : Option Int
  id_tipo_curso : Option Int
  tx_descricao : Option String
deriving DecidableEq, Repr

/-- Row of table `disciplina`. -/
structure Disciplina where
  id_disciplina : Int
  id_curso : Option Int
  id_tipo_disciplina : Option Int
  tx_sigla : Option String
  tx_descricao : Option String
  in_periodo : Option Int
  in_carga_horaria : Option Int
deriving DecidableEq, Repr

/-- Row of table `aluno`. -/
structure Aluno where
  id_aluno : Int
  tx_nome : Option String
  tx_sexo : Option String
  dt_nascimento : Option String
deriving DecidableEq, Repr

/-- Row of table `professor`. -/
structure Professor where
  id_professor : Int
  id_titulo : Option Int
  tx_nome : Option String
  tx_sexo : Option String
  tx_estado_civil : Option String
  dt_nascimento : Option String
  tx_telefone : Option String
deriving DecidableEq, Repr

/-- Row of table `cursa`; the table has no generated id. -/
structure Cursa where
  id_aluno : Option Int
  id_disciplina : Option Int
  in_ano : Option Int
  in_semestre : Option Int
  nm_nota1 : Option Int
  nm_nota2 : Option Int
  nm_nota3 : Option Int
deriving DecidableEq, Repr

/-! ## The database -/

/-- Modelled from the spec: the table definitions are not under `src/`. A table
with a generated primary key is its rows together with the state of the
sequence that generates the key: `lastId` is the last value the sequence
handed out and `issued` records every value it has handed out so far. -/
structure Table (ρ : Type) where
  rows : List ρ
  lastId : Nat
  issued : List Int
deriving DecidableEq, Repr

/-- State of the database the pool is connected to. -/
structure Db where
  instituicao : Table Instituicao
  tipo_curso : Table TipoCurso
  curso : Table Curso
  disciplina : Table Disciplina
  aluno : Table Aluno
  professor : Table Professor
  cursa : List Cursa
deriving DecidableEq, Repr

/-- The value `pool.query` resolves to: the rows returned and `rowCount`. -/
structure QueryResult (ρ : Type) where
  rows : List ρ
  rowCount : Nat
deriving DecidableEq, Repr

namespace Table

variable {ρ : Type}

/-- An empty table whose sequence has not been used. -/
def empty : Table ρ := ⟨[], 0, []⟩

/-- Text `SELECT * FROM t`: the rows in stored order (one of the orders the
database may choose). -/
def selectAll (t : Table ρ) : QueryResult ρ :=
  ⟨t.rows, t.rows.length⟩

/-- Text `SELECT * FROM t ORDER BY key`. -/
def selectOrderBy (key : ρ → Int) (t : Table ρ) : QueryResult ρ :=
  let rs := t.rows.insertionSort (fun a b => key a ≤ key b)
  ⟨rs, rs.length⟩

/-- Text `SELECT * FROM t WHERE key = $1`. -/
def selectWhere (key : ρ → Int) (id : Int) (t : Table ρ) : QueryResult ρ :=
  let rs := t.rows.filter (fun r => key r = id)
  ⟨rs, rs.length⟩

/-- Text `INSERT INTO t (...) VALUES (...) RETURNING *`: the key comes from the
sequence, the other columns from the parameters. -/
def insertReturning (mk : Int → ρ) (t : Table ρ) : QueryResult ρ × Table ρ :=
  let id : Int := (t.lastId + 1 : Nat)
  (⟨[mk id], 1⟩, ⟨t.rows ++ [mk id], t.lastId + 1, id :: t.issued⟩)

/-- Text `UPDATE t SET ... WHERE key = $n`; `rows` of the result is empty
(no `RETURNING`). -/
def updateWhere (key : ρ → Int) (id : Int) (set : ρ → ρ) (t : Table ρ) :
    QueryResult ρ × Table ρ :=
  (⟨[], (t.rows.filter (fun r => key r = id)).length⟩,
   { t with rows := t.rows.map (fun r => if key r = id then set r else r) })

/-- Text `UPDATE t SET ... WHERE key = $n RETURNING *`. -/
def updateWhereReturning (key : ρ → Int) (id : Int) (set : ρ → ρ) (t : Table ρ) :
    QueryResult ρ × Table ρ :=
  let rs := (t.rows.filter (fun r => key r = id)).map set
  (⟨rs, rs.length⟩,
   { t with rows := t.rows.map (fun r => if key r = id then set r else r) })

/-- Text `DELETE FROM t WHERE key = $1`, as far as table `t` goes, once the
foreign keys allow the delete; `rows` of the result is empty (no
`RETURNING`). -/
def deleteWhere (key : ρ → Int) (id : Int) (t : Table ρ) : QueryResult ρ × Table ρ :=
  (⟨[], (t.rows.filter (fun r => key r = id)).length⟩,
   { t with rows := t.rows.filter (fun r => ¬ key r = id) })

/-- Text `DELETE FROM t WHERE key = $1 RETURNING *`, as far as table `t` goes,
once the foreign keys allow the delete. -/
def deleteWhereReturning (key : ρ → Int) (id : Int) (t : Table ρ) :
    QueryResult ρ × Table ρ :=
  let rs := t.rows.filter (fun r => key r = id)
  (⟨rs, rs.length⟩, { t with rows := t.rows.filter (fun r => ¬ key r = id) })

end Table

/-- The empty database. -/
def Db.empty : Db :=
  ⟨Table.empty, Table.empty, Table.empty, Table.empty, Table.empty, Table.empty, []⟩

/-- The error the driver raises for one statement, if it raises. -/
abbrev Fault := Option String

/-- Call `db.query(text, params)`: the driver either rejects the statement
with `err.message` and the database is as before, or runs it. -/
def query {α : Type} (fault : Fault) (run : Db → α × Db) (db : Db) : Except String (α × Db) :=
  match fault with
  | some message => .error message
  | none => .ok (run db)

/-- Modelled from the spec: the table definitions are not under `src/`. By the
data model every foreign key references an existing row and the database
enforces it: this is the error it raises for a `DELETE` of a row that a row of
another table references. -/
def foreignKeyViolation : String :=
  "update or delete on table violates foreign key constraint"

/-- Call `db.query(text, params)` for a statement that the database may reject
by itself: the driver raises its own error, or the error of the statement, and
the database is as before; otherwise the statement runs. -/
def queryChecked {α : Type} (fault : Fault) (stmt : Db → Except String (α × Db)) (db : Db) :
    Except String (α × Db) :=
  match fault with
  | some message => .error message
  | none => stmt db

/-- Statement `DELETE FROM instituicao WHERE id_instituicao = $1`: rejected when
it would delete an institution that a course references (`curso.id_instituicao`). -/
def deleteInstituicao (id : Int) (d : Db) : Except String (QueryResult Instituicao × Db) :=
  if (∃ r ∈ d.instituicao.rows, r.id_instituicao = id) ∧
      (∃ c ∈ d.curso.rows, c.id_instituicao = some id) then
    .error foreignKeyViolation
  else
    let r := d.instituicao.deleteWhere (·.id_instituicao) id
    .ok (r.1, { d with instituicao := r.2 })

/-- Statement `DELETE FROM tipo_curso WHERE id_tipo_curso = $1 RETURNING *`:
rejected when it would delete a course type that a course references
(`curso.id_tipo_curso`). -/
def deleteTipoCurso (id : Int) (d : Db) : Except String (QueryResult TipoCurso × Db) :=
  if (∃ r ∈ d.tipo_curso.rows, r.id_tipo_curso = id) ∧
      (∃ c ∈ d.curso.rows, c.id_tipo_curso = some id) then
    .error foreignKeyViolation
  else
    let r := d.tipo_curso.deleteWhereReturning (·.id_tipo_curso) id
    .ok (r.1, { d with tipo_curso := r.2 })

/-- Statement `DELETE FROM curso WHERE id_curso = $1 RETURNING *`: rejected when
it would delete a course that a disciplina references (`disciplina.id_curso`). -/
def deleteCurso (id : Int) (d : Db) : Except String (QueryResult Curso × Db) :=
  if (∃ r ∈ d.curso.rows, r.id_curso = id) ∧
      (∃ x ∈ d.disciplina.rows, x.id_curso = some id) then
    .error foreignKeyViolation
  else
    let r := d.curso.deleteWhereReturning (·.id_curso) id
    .ok (r.1, { d with curso := r.2 })

/-! ## Responses -/

/-- The statements of the route modules, by kind and table. -/
inductive Tbl
  | instituicao | tipo_curso | curso | disciplina | aluno | professor | cursa
deriving DecidableEq, Repr

/-- A statement sent to the pool. -/
inductive Stmt
  | select (t : Tbl)
  | selectOrdered (t : Tbl)
  | selectById (t : Tbl) (id : Int)
  | insert (t : Tbl)
  | update (t : Tbl) (id : Int)
  | delete (t : Tbl) (id : Int)
  | estatisticas
deriving DecidableEq, Repr

/-- Body of a response. -/
inductive Body (ρ : Type)
  /-- Call `res.json(rows)`. -/
  | rows (rs : List ρ)
  /-- Call `res.json(rows[0])` with a row. -/
  | row (r : ρ)
  /-- Call `res.json(rows[0])` when `rows` is empty. -/
  | undefined
  /-- Call `res.send(text)`. -/
  | text (s : String)
  /-- Call `res.json` with an object that has the one field `error`. -/
  | error (msg : String)
  /-- Call `res.json` with an object that has the one field `message`. -/
  | message (msg : String)
  /-- Call `res.json` with an object that has the fields `message` and `error`. -/
  | messageError (msg : String) (err : String)
  /-- Call `res.send()`. -/
  | empty
deriving DecidableEq, Repr

/-- An HTTP response. -/
structure Response (ρ : Type) where
  status : Nat
  body : Body ρ
deriving DecidableEq, Repr

/-- What handling one request amounts to: the response, the database
afterwards and the statements sent to the pool, in order. -/
structure Outcome (ρ : Type) where
  res : Response ρ
  db : Db
  stmts : List Stmt
deriving DecidableEq, Repr

/-- Expression `res.json(rows[0])`. -/
def jsonFirst {ρ : Type} (rows : List ρ) : Body ρ :=
  match rows with
  | r :: _ => .row r
  | [] => .undefined

/-- JavaScript `!v` for a string-valued body field: absent, `null` and the
empty string are falsy. -/
def falsy (v : Option String) : Bool :=
  match v with
  | none => true
  | some s => s == ""

/-! ## Request bodies -/

/-- Body fields read by the handlers of `routes/instituicao.js`. -/
structure InstituicaoBody where
  tx_sigla : Option String
  tx_descricao : Option String
deriving DecidableEq, Repr

/-- Body field read by the handlers of `routes/tipo_curso.js`. -/
structure TipoCursoBody where
  tx_descricao : Option String
deriving DecidableEq, Repr

/-- Body fields read by `router.post('/')` of `routes/curso.js`. -/
structure CursoBody where
  id_instituicao : Option Int
  id_tipo_curso : Option Int
  tx_descricao : Option String
deriving DecidableEq, Repr

/-- Body fields read by the create handlers of `routes/disciplinas.js`;
`router.post('/curso/:cursoId')` does not read `id_curso`. -/
structure DisciplinaBody where
  id_curso : Option Int
  id_tipo_disciplina : Option Int
  tx_sigla : Option String
  tx_descricao : Option String
  in_periodo : Option Int
  in_carga_horaria : Option Int
deriving DecidableEq, Repr

/-- Body fields read by `router.post('/')` of `routes/alunos.js`. -/
structure AlunoBody where
  tx_nome : Option String
  tx_sexo : Option String
  dt_nascimento : Option String
deriving DecidableEq, Repr

/-- Body fields read by `router.post('/')` of `routes/professores.js`. -/
structure ProfessorBody where
  id_titulo : Option Int
  tx_nome : Option String
  tx_sexo : Option String
  tx_estado_civil : Option String
  dt_nascimento : Option String
  tx_telefone : Option String
deriving DecidableEq, Repr

/-! ## routes/instituicao.js -/

namespace instituicao

/-- Handler `router.get('/')`. -/
def getAll (fault : Fault) (db : Db) : Outcome Instituicao :=
  match query fault (fun d => (d.instituicao.selectOrderBy (·.id_instituicao), d)) db with
  | .ok (result, db1) => ⟨⟨200, .rows result.rows⟩, db1, [.selectOrdered .instituicao]⟩
  | .error message => ⟨⟨500, .text message⟩, db, [.selectOrdered .instituicao]⟩

/-- Handler `router.get('/:id')`. -/
def getById (id : Int) (fault : Fault) (db : Db) : Outcome Instituicao :=
  match query fault (fun d => (d.instituicao.selectWhere (·.id_instituicao) id, d)) db with
  | .ok (result, db1) =>
    if result.rows.length = 0 then
      ⟨⟨404, .text "Instituição não encontrada"⟩, db1, [.selectById .instituicao id]⟩
    else
      ⟨⟨200, jsonFirst result.rows⟩, db1, [.selectById .instituicao id]⟩
  | .error message => ⟨⟨500, .text message⟩, db, [.selectById .instituicao id]⟩

/-- Handler `router.post('/')`. -/
def post (body : InstituicaoBody) (fault : Fault) (db : Db) : Outcome Instituicao :=
  match query fault (fun d =>
      let r := d.instituicao.insertReturning (fun id => ⟨id, body.tx_sigla, body.tx_descricao⟩)
      (r.1, { d with instituicao := r.2 })) db with
  | .ok (result, db1) => ⟨⟨201, jsonFirst result.rows⟩, db1, [.insert .instituicao]⟩
  | .error message => ⟨⟨500, .text message⟩, db, [.insert .instituicao]⟩

/-- Handler `router.put('/:id')`: an `UPDATE` and, when it changed a row, a
`SELECT` of the row. -/
def put (id : Int) (body : InstituicaoBody) (fault1 fault2 : Fault) (db : Db) :
    Outcome Instituicao :=
  match query fault1 (fun d =>
      let r := d.instituicao.updateWhere (·.id_instituicao) id
        (fun row => { row with tx_sigla := body.tx_sigla, tx_descricao := body.tx_descricao })
      (r.1, { d with instituicao := r.2 })) db with
  | .ok (result, db1) =>
    if result.rowCount = 0 then
      ⟨⟨404, .text "Instituição não encontrada"⟩, db1, [.update .instituicao id]⟩
    else
      match query fault2 (fun d => (d.instituicao.selectWhere (·.id_instituicao) id, d)) db1 with
      | .ok (result2, db2) =>
        ⟨⟨200, jsonFirst result2.rows⟩, db2,
          [.update .instituicao id, .selectById .instituicao id]⟩
      | .error message =>
        ⟨⟨500, .text message⟩, db1, [.update .instituicao id, .selectById .instituicao id]⟩
  | .error message => ⟨⟨500, .text message⟩, db, [.update .instituicao id]⟩

/-- Handler `router.delete('/:id')`. -/
def delete (id : Int) (fault : Fault) (db : Db) : Outcome Instituicao :=
  match queryChecked fault (deleteInstituicao id) db with
  | .ok (result, db1) =>
    if result.rowCount = 0 then
      ⟨⟨404, .text "Instituição não encontrada"⟩, db1, [.delete .instituicao id]⟩
    else
      ⟨⟨204, .empty⟩, db1, [.delete .instituicao id]⟩
  | .error message => ⟨⟨500, .text message⟩, db, [.delete .instituicao id]⟩

end instituicao

/-! ## routes/tipo_curso.js -/

namespace tipo_curso

/-- Handler `router.get('/')`. -/
def getAll (fault : Fault) (db : Db) : Outcome TipoCurso :=
  match query fault (fun d => (d.tipo_curso.selectOrderBy (·.id_tipo_curso), d)) db with
  | .ok (result, db1) => ⟨⟨200, .rows result.rows⟩, db1, [.selectOrdered .tipo_curso]⟩
  | .error _ => ⟨⟨500, .error "Erro ao buscar tipos de curso"⟩, db, [.selectOrdered .tipo_curso]⟩

/-- Handler `router.get('/:id')`. -/
def getById (id : Int) (fault : Fault) (db : Db) : Outcome TipoCurso :=
  match query fault (fun d => (d.tipo_curso.selectWhere (·.id_tipo_curso) id, d)) db with
  | .ok (result, db1) =>
    if result.rows.length = 0 then
      ⟨⟨404, .error "Tipo de curso não encontrado"⟩, db1, [.selectById .tipo_curso id]⟩
    else
      ⟨⟨200, jsonFirst result.rows⟩, db1, [.selectById .tipo_curso id]⟩
  | .error _ => ⟨⟨500, .error "Erro ao buscar tipo de curso"⟩, db, [.selectById .tipo_curso id]⟩

/-- Handler `router.post('/')`. -/
def post (body : TipoCursoBody) (fault : Fault) (db : Db) : Outcome TipoCurso :=
  if falsy body.tx_descricao then
    ⟨⟨400, .error "tx_descricao é obrigatório"⟩, db, []⟩
  else
    match query fault (fun d =>
        let r := d.tipo_curso.insertReturning (fun id => ⟨id, body.tx_descricao⟩)
        (r.1, { d with tipo_curso := r.2 })) db with
    | .ok (result, db1) => ⟨⟨201, jsonFirst result.rows⟩, db1, [.insert .tipo_curso]⟩
    | .error _ => ⟨⟨500, .error "Erro ao criar tipo de curso"⟩, db, [.insert .tipo_curso]⟩

/-- Handler `router.put('/:id')`. -/
def put (id : Int) (body : TipoCursoBody) (fault : Fault) (db : Db) : Outcome TipoCurso :=
  if falsy body.tx_descricao then
    ⟨⟨400, .error "tx_descricao é obrigatório"⟩, db, []⟩
  else
    match query fault (fun d =>
        let r := d.tipo_curso.updateWhereReturning (·.id_tipo_curso) id
          (fun row => { row with tx_descricao := body.tx_descricao })
        (r.1, { d with tipo_curso := r.2 })) db with
    | .ok (result, db1) =>
      if result.rows.length = 0 then
        ⟨⟨404, .error "Tipo de curso não encontrado"⟩, db1, [.update .tipo_curso id]⟩
      else
        ⟨⟨200, jsonFirst result.rows⟩, db1, [.update .tipo_curso id]⟩
    | .error _ => ⟨⟨500, .error "Erro ao atualizar tipo de curso"⟩, db, [.update .tipo_curso id]⟩

/-- Handler `router.delete('/:id')`. -/
def delete (id : Int) (fault : Fault) (db : Db) : Outcome TipoCurso :=
  match queryChecked fault (deleteTipoCurso id) db with
  | .ok (result, db1) =>
    if result.rows.length = 0 then
      ⟨⟨404, .error "Tipo de curso não encontrado"⟩, db1, [.delete .tipo_curso id]⟩
    else
      ⟨⟨204, .empty⟩, db1, [.delete .tipo_curso id]⟩
  | .error _ => ⟨⟨500, .error "Erro ao remover tipo de curso"⟩, db, [.delete .tipo_curso id]⟩

end tipo_curso

/-! ## routes/curso.js -/

namespace curso

/-- Handler `router.get('/')`. -/
def getAll (fault : Fault) (db : Db) : Outcome Curso :=
  match query fault (fun d => (d.curso.selectAll, d)) db with
  | .ok (result, db1) => ⟨⟨200, .rows result.rows⟩, db1, [.select .curso]⟩
  | .error message => ⟨⟨500, .text message⟩, db, [.select .curso]⟩

/-- Handler `router.post('/')`. -/
def post (body : CursoBody) (fault : Fault) (db : Db) : Outcome Curso :=
  match query fault (fun d =>
      let r := d.curso.insertReturning
        (fun id => ⟨id, body.id_instituicao, body.id_tipo_curso, body.tx_descricao⟩)
      (r.1, { d with curso := r.2 })) db with
  | .ok (result, db1) => ⟨⟨201, jsonFirst result.rows⟩, db1, [.insert .curso]⟩
  | .error message => ⟨⟨500, .text message⟩, db, [.insert .curso]⟩

/-- Handler `router.delete('/:id')`. -/
def delete (id : Int) (fault : Fault) (db : Db) : Outcome Curso :=
  match queryChecked fault (deleteCurso id) db with
  | .ok (result, db1) =>
    if result.rowCount = 0 then
      ⟨⟨404, .message "Curso não encontrado"⟩, db1, [.delete .curso id]⟩
    else
      ⟨⟨200, .message "Curso removido com sucesso"⟩, db1, [.delete .curso id]⟩
  | .error message =>
    ⟨⟨500, .messageError "Erro ao remover curso" message⟩, db, [.delete .curso id]⟩

end curso

/-! ## routes/disciplinas.js -/

/-- Row of the result of the aggregate statement; `COUNT` is a natural number. -/
structure Estatistica where
  curso : Option String
  quantidade_disciplinas : Nat
deriving DecidableEq, Repr

/-- Clause `FROM curso c LEFT JOIN disciplina d ON c.id_curso = d.id_curso`: a
course without a matching disciplina yields one row whose `d` side is null. -/
def leftJoin (cs : List Curso) (ds : List Disciplina) : List (Curso × Option Disciplina) :=
  cs.flatMap (fun c =>
    let ms := ds.filter (fun d => d.id_curso = some c.id_curso)
    if ms.isEmpty then [(c, none)] else ms.map (fun d => (c, some d)))

/-- Clause `GROUP BY c.tx_descricao` with the select list
`c.tx_descricao AS curso, COUNT(d.id_disciplina) AS quantidade_disciplinas`:
one row per distinct description (null descriptions form one group);
`COUNT` counts the joined rows whose `d.id_disciplina` is not null. -/
def groupCount (js : List (Curso × Option Disciplina)) : List Estatistica :=
  (js.map (fun j => j.1.tx_descricao)).dedup.map (fun k =>
    ⟨k, (js.filter (fun j => j.1.tx_descricao = k)).countP
          (fun j => (j.2.map (fun d => d.id_disciplina)).isSome)⟩)

/-- Clause `ORDER BY quantidade_disciplinas DESC` (the order among equal
counts is one the database may choose). -/
def orderDesc (rs : List Estatistica) : List Estatistica :=
  rs.insertionSort (fun a b => b.quantidade_disciplinas ≤ a.quantidade_disciplinas)

/-- The aggregate statement of `router.get('/estatisticas/disciplinas')`. -/
def estatisticasQuery (d : Db) : QueryResult Estatistica :=
  let rs := orderDesc (groupCount (leftJoin d.curso.rows d.disciplina.rows))
  ⟨rs, rs.length⟩

namespace disciplinas

/-- Handler `router.get('/')`. -/
def getAll (fault : Fault) (db : Db) : Outcome Disciplina :=
  match query fault (fun d => (d.disciplina.selectAll, d)) db with
  | .ok (result, db1) => ⟨⟨200, .rows result.rows⟩, db1, [.select .disciplina]⟩
  | .error message => ⟨⟨500, .text message⟩, db, [.select .disciplina]⟩

/-- Handler `router.post('/')`. -/
def post (body : DisciplinaBody) (fault : Fault) (db : Db) : Outcome Disciplina :=
  match query fault (fun d =>
      let r := d.disciplina.insertReturning
        (fun id => ⟨id, body.id_curso, body.id_tipo_disciplina, body.tx_sigla,
          body.tx_descricao, body.in_periodo, body.in_carga_horaria⟩)
      (r.1, { d with disciplina := r.2 })) db with
  | .ok (result, db1) => ⟨⟨201, jsonFirst result.rows⟩, db1, [.insert .disciplina]⟩
  | .error message => ⟨⟨500, .text message⟩, db, [.insert .disciplina]⟩

/-- Handler `router.get('/estatisticas/disciplinas')`. -/
def estatisticas (fault : Fault) (db : Db) : Outcome Estatistica :=
  match query fault (fun d => (estatisticasQuery d, d)) db with
  | .ok (result, db1) => ⟨⟨200, .rows result.rows⟩, db1, [.estatisticas]⟩
  | .error _ =>
    ⟨⟨500, .text "Erro ao buscar estatísticas de disciplinas"⟩, db, [.estatisticas]⟩

/-- Handler `router.post('/curso/:cursoId')`: a `SELECT` of the course and,
when it exists, the `INSERT`. -/
def postCurso (cursoId : Int) (body : DisciplinaBody) (fault1 fault2 : Fault) (db : Db) :
    Outcome Disciplina :=
  match query fault1 (fun d => (d.curso.selectWhere (·.id_curso) cursoId, d)) db with
  | .ok (cursoCheck, db1) =>
    if cursoCheck.rows.length = 0 then
      ⟨⟨404, .message "Curso não encontrado"⟩, db1, [.selectById .curso cursoId]⟩
    else
      match query fault2 (fun d =>
          let r := d.disciplina.insertReturning
            (fun id => ⟨id, some cursoId, body.id_tipo_disciplina, body.tx_sigla,
              body.tx_descricao, body.in_periodo, body.in_carga_horaria⟩)
          (r.1, { d with disciplina := r.2 })) db1 with
      | .ok (result, db2) =>
        ⟨⟨201, jsonFirst result.rows⟩, db2, [.selectById .curso cursoId, .insert .disciplina]⟩
      | .error message =>
        ⟨⟨500, .messageError "Erro ao adicionar disciplina ao curso" message⟩, db1,
          [.selectById .curso cursoId, .insert .disciplina]⟩
  | .error message =>
    ⟨⟨500, .messageError "Erro ao adicionar disciplina ao curso" message⟩, db,
      [.selectById .curso cursoId]⟩

end disciplinas

/-! ## routes/alunos.js -/

namespace alunos

/-- Handler `router.get('/')`. -/
def getAll (fault : Fault) (db : Db) : Outcome Aluno :=
  match query fault (fun d => (d.aluno.selectAll, d)) db with
  | .ok (result, db1) => ⟨⟨200, .rows result.rows⟩, db1, [.select .aluno]⟩
  | .error message => ⟨⟨500, .text message⟩, db, [.select .aluno]⟩

/-- Handler `router.post('/')`. -/
def post (body : AlunoBody) (fault : Fault) (db : Db) : Outcome Aluno :=
  match query fault (fun d =>
      let r := d.aluno.insertReturning
        (fun id => ⟨id, body.tx_nome, body.tx_sexo, body.dt_nascimento⟩)
      (r.1, { d with aluno := r.2 })) db with
  | .ok (result, db1) => ⟨⟨201, jsonFirst result.rows⟩, db1, [.insert .aluno]⟩
  | .error message => ⟨⟨500, .text message⟩, db, [.insert .aluno]⟩

end alunos

/-! ## routes/professores.js -/

namespace professores

/-- Handler `router.get('/')`. -/
def getAll (fault : Fault) (db : Db) : Outcome Professor :=
  match query fault (fun d => (d.professor.selectAll, d)) db with
  | .ok (result, db1) => ⟨⟨200, .rows result.rows⟩, db1, [.select .professor]⟩
  | .error message => ⟨⟨500, .text message⟩, db, [.select .professor]⟩

/-- Handler `router.post('/')`. -/
def post (body : ProfessorBody) (fault : Fault) (db : Db) : Outcome Professor :=
  match query fault (fun d =>
      let r := d.professor.insertReturning
        (fun id => ⟨id, body.id_titulo, body.tx_nome, body.tx_sexo, body.tx_estado_civil,
          body.dt_nascimento, body.tx_telefone⟩)
      (r.1, { d with professor := r.2 })) db with
  | .ok (result, db1) => ⟨⟨201, jsonFirst result.rows⟩, db1, [.insert .professor]⟩
  | .error message => ⟨⟨500, .text message⟩, db, [.insert .professor]⟩

end professores

/-! ## routes/cursa.js -/

namespace cursa

/-- Handler `router.post('/')`; the body carries the columns of the row. -/
def post (body : Cursa) (fault : Fault) (db : Db) : Outcome Cursa :=
  match query fault (fun d =>
      ((⟨[body], 1⟩ : QueryResult Cursa), { d with cursa := d.cursa ++ [body] })) db with
  | .ok (result, db1) => ⟨⟨201, jsonFirst result.rows⟩, db1, [.insert .cursa]⟩
  | .error message => ⟨⟨500, .text message⟩, db, [.insert .cursa]⟩

end cursa

/-! ## All handlers -/

/-- A row of any table or of the aggregate result. -/
inductive Row
  | instituicao (r : Instituicao)
  | tipo_curso (r : TipoCurso)
  | curso (r : Curso)
  | disciplina (r : Disciplina)
  | aluno (r : Aluno)
  | professor (r : Professor)
  | cursa (r : Cursa)
  | estatistica (r : Estatistica)
deriving DecidableEq, Repr

/-- Change of the row type of a body. -/
def Body.map {ρ σ : Type} (f : ρ → σ) : Body ρ → Body σ
  | .rows rs => .rows (rs.map f)
  | .row r => .row (f r)
  | .undefined => .undefined
  | .text s => .text s
  | .error msg => .error msg
  | .message msg => .message msg
  | .messageError msg err => .messageError msg err
  | .empty => .empty

/-- Change of the row type of an outcome. -/
def Outcome.map {ρ σ : Type} (f : ρ → σ) (o : Outcome ρ) : Outcome σ :=
  ⟨⟨o.res.status, o.res.body.map f⟩, o.db, o.stmts⟩

/-- A handler of a route module together with its inputs. -/
inductive Call
  | instituicao_getAll
  | instituicao_getById (id : Int)
  | instituicao_post (body : InstituicaoBody)
  | instituicao_put (id : Int) (body : InstituicaoBody)
  | instituicao_delete (id : Int)
  | tipo_curso_getAll
  | tipo_curso_getById (id : Int)
  | tipo_curso_post (body : TipoCursoBody)
  | tipo_curso_put (id : Int) (body : TipoCursoBody)
  | tipo_curso_delete (id : Int)
  | curso_getAll
  | curso_post (body : CursoBody)
  | curso_delete (id : Int)
  | disciplinas_getAll
  | disciplinas_post (body : DisciplinaBody)
  | disciplinas_estatisticas
  | disciplinas_postCurso (cursoId : Int) (body : DisciplinaBody)
  | alunos_getAll
  | alunos_post (body : AlunoBody)
  | professores_getAll
  | professores_post (body : ProfessorBody)
  | cursa_post (body : Cursa)
deriving DecidableEq, Repr

/-- Run of a handler; `fault1` and `fault2` are what the driver raises for the
first and the second statement the handler sends. -/
def handle (call : Call) (fault1 fault2 : Fault) (db : Db) : Outcome Row :=
  match call with
  | .instituicao_getAll => (instituicao.getAll fault1 db).map .instituicao
  | .instituicao_getById id => (instituicao.getById id fault1 db).map .instituicao
  | .instituicao_post body => (instituicao.post body fault1 db).map .instituicao
  | .instituicao_put id body => (instituicao.put id body fault1 fault2 db).map .instituicao
  | .instituicao_delete id => (instituicao.delete id fault1 db).map .instituicao
  | .tipo_curso_getAll => (tipo_curso.getAll fault1 db).map .tipo_curso
  | .tipo_curso_getById id => (tipo_curso.getById id fault1 db).map .tipo_curso
  | .tipo_curso_post body => (tipo_curso.post body fault1 db).map .tipo_curso
  | .tipo_curso_put id body => (tipo_curso.put id body fault1 db).map .tipo_curso
  | .tipo_curso_delete id => (tipo_curso.delete id fault1 db).map .tipo_curso
  | .curso_getAll => (curso.getAll fault1 db).map .curso
  | .curso_post body => (curso.post body fault1 db).map .curso
  | .curso_delete id => (curso.delete id fault1 db).map .curso
  | .disciplinas_getAll => (disciplinas.getAll fault1 db).map .disciplina
  | .disciplinas_post body => (disciplinas.post body fault1 db).map .disciplina
  | .disciplinas_estatisticas => (disciplinas.estatisticas fault1 db).map .estatistica
  | .disciplinas_postCurso cursoId body =>
    (disciplinas.postCurso cursoId body fault1 fault2 db).map .disciplina
  | .alunos_getAll => (alunos.getAll fault1 db).map .aluno
  | .alunos_post body => (alunos.post body fault1 db).map .aluno
  | .professores_getAll => (professores.getAll fault1 db).map .professor
  | .professores_post body => (professores.post body fault1 db).map .professor
  | .cursa_post body => (cursa.post body fault1 db).map .cursa

/-! ## Sample states -/

/-- A database with two institutions, two course types, three courses (two of
them with the same description) and two disciplines of the first course. -/
def sampleDb : Db :=
  { instituicao := ⟨[⟨1, some "USP", some "Universidade de São Paulo"⟩,
                     ⟨2, some "UFS", some "Universidade Federal de Sergipe"⟩], 2, [2, 1]⟩
    tipo_curso := ⟨[⟨1, some "Bacharelado"⟩, ⟨2, some "Tecnólogo"⟩], 2, [2, 1]⟩
    curso := ⟨[⟨1, some 1, some 1, some "Sistemas"⟩, ⟨2, some 2, some 1, some "Sistemas"⟩,
               ⟨3, some 2, some 2, some "Redes"⟩], 3, [3, 2, 1]⟩
    disciplina := ⟨[⟨1, some 1, some 1, some "POO", some "Programação Orientada a Objetos",
                      some 3, some 60⟩,
                    ⟨2, some 1, some 1, some "BD", some "Banco de Dados", some 4, some 60⟩],
                   2, [2, 1]⟩
    aluno := Table.empty
    professor := Table.empty
    cursa := [] }

/-- The sample database with a third institution and a third course type that
no course references. -/
def sampleDb2 : Db :=
  { sampleDb with
    instituicao := ⟨[⟨1, some "USP", some "Universidade de São Paulo"⟩,
                     ⟨2, some "UFS", some "Universidade Federal de Sergipe"⟩,
                     ⟨3, some "UFBA", some "Universidade Federal da Bahia"⟩], 3, [3, 2, 1]⟩
    tipo_curso := ⟨[⟨1, some "Bacharelado"⟩, ⟨2, some "Tecnólogo"⟩, ⟨3, some "Licenciatura"⟩],
                   3, [3, 2, 1]⟩ }


/-! ## Predicates used in the statements -/

/-- The body carries the message `m`: as the text of the response or as the
`error` field of its JSON object. -/
def Body.carries {ρ : Type} (m : String) : Body ρ → Bool
  | .text s => s == m
  | .error e => e == m
  | .messageError _ e => e == m
  | _ => false

/-- The handlers whose `catch` block puts `err.message` in the response: all
but those of `routes/tipo_curso.js` and the aggregate handler. -/
def Call.sendsErrMessage : Call → Bool
  | .tipo_curso_getAll => false
  | .tipo_curso_getById _ => false
  | .tipo_curso_post _ => false
  | .tipo_curso_put _ _ => false
  | .tipo_curso_delete _ => false
  | .disciplinas_estatisticas => false
  | _ => true

/-- Consistency of a table with its sequence: every value handed out so far
is positive and at most `lastId`, every stored key was handed out by the
sequence, and the stored keys are distinct (the key is the primary key). -/
@[reducible] def Table.WF {ρ : Type} (key : ρ → Int) (t : Table ρ) : Prop :=
  (∀ i ∈ t.issued, 0 < i ∧ i ≤ (t.lastId : Int)) ∧
  (∀ r ∈ t.rows, key r ∈ t.issued) ∧
  (t.rows.map key).Nodup

/-- Consistency of every table of the database with its sequence. -/
@[reducible] def Db.WF (db : Db) : Prop :=
  db.instituicao.WF (fun r => r.id_instituicao) ∧
  db.tipo_curso.WF (fun r => r.id_tipo_curso) ∧
  db.curso.WF (fun r => r.id_curso) ∧
  db.disciplina.WF (fun r => r.id_disciplina) ∧
  db.aluno.WF (fun r => r.id_aluno) ∧
  db.professor.WF (fun r => r.id_professor)

/-- A create answered with a new row: the response is 201 with a row `r`, the
table afterwards is the table before plus `r` at the end, the key of `r` is
positive, was never handed out by the sequence before and is the key of no
row stored before, and the sequence records it. -/
def Created {ρ : Type} (key : ρ → Int) (before after : Table ρ) (res : Response ρ) : Prop :=
  ∃ r, res = ⟨201, .row r⟩ ∧ after.rows = before.rows ++ [r] ∧ 0 < key r ∧
    key r ∉ before.issued ∧ (∀ r2 ∈ before.rows, key r2 ≠ key r) ∧
    after.issued = key r :: before.issued

/-- A delete that removed the row with key `id`: the table afterwards is the
table before without the rows whose key is `id` (the other rows are kept as
they are and the sequence is untouched), and when the keys are distinct
exactly one row is gone. -/
def Removed {ρ : Type} (key : ρ → Int) (id : Int) (before after : Table ρ) : Prop :=
  after = { before with rows := before.rows.filter (fun r => ¬ key r = id) } ∧
  (∀ r, r ∈ after.rows ↔ r ∈ before.rows ∧ key r ≠ id) ∧
  ((before.rows.map key).Nodup → after.rows.length + 1 = before.rows.length)

/-- The handlers that create a row (`router.post`). -/
def Call.isCreate : Call → Bool
  | .instituicao_post _ => true
  | .tipo_curso_post _ => true
  | .curso_post _ => true
  | .disciplinas_post _ => true
  | .disciplinas_postCurso _ _ => true
  | .alunos_post _ => true
  | .professores_post _ => true
  | .cursa_post _ => true
  | _ => false

/-- The resource (table) a handler serves; the aggregate handler belongs to
`routes/disciplinas.js`. -/
def Call.resource : Call → Tbl
  | .instituicao_getAll => .instituicao
  | .instituicao_getById _ => .instituicao
  | .instituicao_post _ => .instituicao
  | .instituicao_put _ _ => .instituicao
  | .instituicao_delete _ => .instituicao
  | .tipo_curso_getAll => .tipo_curso
  | .tipo_curso_getById _ => .tipo_curso
  | .tipo_curso_post _ => .tipo_curso
  | .tipo_curso_put _ _ => .tipo_curso
  | .tipo_curso_delete _ => .tipo_curso
  | .curso_getAll => .curso
  | .curso_post _ => .curso
  | .curso_delete _ => .curso
  | .disciplinas_getAll => .disciplina
  | .disciplinas_post _ => .disciplina
  | .disciplinas_estatisticas => .disciplina
  | .disciplinas_postCurso _ _ => .disciplina
  | .alunos_getAll => .aluno
  | .alunos_post _ => .aluno
  | .professores_getAll => .professor
  | .professores_post _ => .professor
  | .cursa_post _ => .cursa

/-! ## index.js: the routes of the application -/

/-- HTTP methods the route modules register handlers for. -/
inductive Method
  | GET | POST | PUT | DELETE
deriving DecidableEq, Repr

/-- The route modules under `routes/`. -/
inductive Router
  | instituicao | tipo_curso | curso | disciplinas | alunos | professores | cursa
deriving DecidableEq, Repr

/-- The handlers of the route modules, without their inputs. -/
inductive HandlerId
  | instituicao_getAll | instituicao_getById | instituicao_post | instituicao_put
  | instituicao_delete
  | tipo_curso_getAll | tipo_curso_getById | tipo_curso_post | tipo_curso_put
  | tipo_curso_delete
  | curso_getAll | curso_post | curso_delete
  | disciplinas_getAll | disciplinas_post | disciplinas_estatisticas | disciplinas_postCurso
  | alunos_getAll | alunos_post
  | professores_getAll | professores_post
  | cursa_post
deriving DecidableEq, Repr

/-- The handler a call runs. -/
def Call.handlerId : Call → HandlerId
  | .instituicao_getAll => .instituicao_getAll
  | .instituicao_getById _ => .instituicao_getById
  | .instituicao_post _ => .instituicao_post
  | .instituicao_put _ _ => .instituicao_put
  | .instituicao_delete _ => .instituicao_delete
  | .tipo_curso_getAll => .tipo_curso_getAll
  | .tipo_curso_getById _ => .tipo_curso_getById
  | .tipo_curso_post _ => .tipo_curso_post
  | .tipo_curso_put _ _ => .tipo_curso_put
  | .tipo_curso_delete _ => .tipo_curso_delete
  | .curso_getAll => .curso_getAll
  | .curso_post _ => .curso_post
  | .curso_delete _ => .curso_delete
  | .disciplinas_getAll => .disciplinas_getAll
  | .disciplinas_post _ => .disciplinas_post
  | .disciplinas_estatisticas => .disciplinas_estatisticas
  | .disciplinas_postCurso _ _ => .disciplinas_postCurso
  | .alunos_getAll => .alunos_getAll
  | .alunos_post _ => .alunos_post
  | .professores_getAll => .professores_getAll
  | .professores_post _ => .professores_post
  | .cursa_post _ => .cursa_post

/-- A segment of a route path: a literal or a parameter such as `:id`. -/
inductive Seg
  | lit (s : String)
  | param
deriving DecidableEq, Repr

/-- A route path matches a request path segment by segment; a parameter
matches any segment. -/
def matchPath : List Seg → List String → Bool
  | [], [] => true
  | .lit s :: ps, x :: xs => s == x && matchPath ps xs
  | .param :: ps, _ :: xs => matchPath ps xs
  | _, _ => false

/-- The routes a module registers, in the order of its `router.get`,
`router.post`, `router.put` and `router.delete` calls. -/
def Router.routes : Router → List (Method × List Seg × HandlerId)
  | .instituicao =>
    [(.GET, [], .instituicao_getAll), (.GET, [.param], .instituicao_getById),
     (.POST, [], .instituicao_post), (.PUT, [.param], .instituicao_put),
     (.DELETE, [.param], .instituicao_delete)]
  | .tipo_curso =>
    [(.GET, [], .tipo_curso_getAll), (.GET, [.param], .tipo_curso_getById),
     (.POST, [], .tipo_curso_post), (.PUT, [.param], .tipo_curso_put),
     (.DELETE, [.param], .tipo_curso_delete)]
  | .curso =>
    [(.GET, [], .curso_getAll), (.POST, [], .curso_post), (.DELETE, [.param], .curso_delete)]
  | .disciplinas =>
    [(.GET, [], .disciplinas_getAll), (.POST, [], .disciplinas_post),
     (.GET, [.lit "estatisticas", .lit "disciplinas"], .disciplinas_estatisticas),
     (.POST, [.lit "curso", .param], .disciplinas_postCurso)]
  | .alunos => [(.GET, [], .alunos_getAll), (.POST, [], .alunos_post)]
  | .professores => [(.GET, [], .professores_getAll), (.POST, [], .professores_post)]
  | .cursa => [(.POST, [], .cursa_post)]

/-- The handler of a module that serves a method and a path below the mount
point: the first registered route that matches. -/
def Router.dispatch (r : Router) (m : Method) (path : List String) : Option HandlerId :=
  (r.routes.find? (fun x => x.1 == m && matchPath x.2.1 path)).map (fun x => x.2.2)

/-- The `app.use(path, router)` calls of `index.js`, in order. -/
def mounts : List (String × Router) :=
  [("instituicoes", .instituicao), ("alunos", .alunos), ("professores", .professores),
   ("cursos", .curso), ("disciplinas", .disciplinas), ("tipocurso", .tipo_curso)]

/-- What serves a request. -/
inductive Target
  /-- A handler of a route module. -/
  | handler (h : HandlerId)
  /-- The pages mounted at `/api-docs`. -/
  | apiDocs
  /-- The root route `app.get('/')`. -/
  | root
  /-- No route matches. -/
  | notFound
deriving DecidableEq, Repr

/-- The application of `index.js`: a request path, given as its segments, is
served by `/api-docs`, by the first mounted router whose mount point is the
first segment and that has a matching route, or by the root route. -/
def app (m : Method) (path : List String) : Target :=
  match path with
  | [] => if m = .GET then .root else .notFound
  | seg :: rest =>
    if seg = "api-docs" then .apiDocs
    else
      match mounts.findSome? (fun x => if x.1 = seg then x.2.dispatch m rest else none) with
      | some h => .handler h
      | none => .notFound

/-! ## Lemmas on the statements -/

@[simp] theorem query_none {α : Type} (run : Db → α × Db) (db : Db) :
    query none run db = .ok (run db) := rfl

@[simp] theorem query_some {α : Type} (m : String) (run : Db → α × Db) (db : Db) :
    query (some m) run db = .error m := rfl

@[simp] theorem queryChecked_none {α : Type} (stmt : Db → Except String (α × Db)) (db : Db) :
    queryChecked none stmt db = stmt db := rfl

@[simp] theorem queryChecked_some {α : Type} (m : String)
    (stmt : Db → Except String (α × Db)) (db : Db) :
    queryChecked (some m) stmt db = .error m := rfl

theorem filter_key_absent {ρ : Type} (key : ρ → Int) (id : Int) (rows : List ρ)
    (h : ∀ r ∈ rows, key r ≠ id) :
    rows.filter (fun r => decide (key r = id)) = [] := by
  rw [List.filter_eq_nil_iff]
  intro r hr
  simpa using h r hr

theorem filter_key_ne_absent {ρ : Type} (key : ρ → Int) (id : Int) (rows : List ρ)
    (h : ∀ r ∈ rows, key r ≠ id) :
    rows.filter (fun r => decide (¬ key r = id)) = rows := by
  rw [List.filter_eq_self]
  intro r hr
  simpa using h r hr

theorem map_update_absent {ρ : Type} (key : ρ → Int) (id : Int) (set : ρ → ρ) (rows : List ρ)
    (h : ∀ r ∈ rows, key r ≠ id) :
    rows.map (fun r => if key r = id then set r else r) = rows := by
  induction rows with
  | nil => rfl
  | cons a l ih =>
    have ha : key a ≠ id := h a (List.mem_cons_self _ _)
    simp [ha, ih (fun r hr => h r (List.mem_cons_of_mem _ hr))]

/-- The first row a `WHERE key = id` selects, when some row has the key. -/
theorem filter_key_present {ρ : Type} (key : ρ → Int) (id : Int) (rows : List ρ)
    (h : ∃ r ∈ rows, key r = id) :
    ∃ r rest, rows.filter (fun r => decide (key r = id)) = r :: rest ∧ r ∈ rows ∧ key r = id := by
  obtain ⟨r0, hr0, hk0⟩ := h
  have hm : r0 ∈ rows.filter (fun r => decide (key r = id)) := by
    simp [List.mem_filter, hr0, hk0]
  cases hf : rows.filter (fun r => decide (key r = id)) with
  | nil => rw [hf] at hm; simp at hm
  | cons r rest =>
    have hr : r ∈ rows.filter (fun r => decide (key r = id)) := by
      rw [hf]; exact List.mem_cons_self _ _
    rw [List.mem_filter] at hr
    exact ⟨r, rest, rfl, hr.1, by simpa using hr.2⟩

/-- A row sent by `res.json(rows[0])` is a member of `rows`. -/
theorem jsonFirst_eq_row {ρ : Type} {rows : List ρ} {r : ρ} (h : jsonFirst rows = .row r) :
    r ∈ rows := by
  cases rows with
  | nil => simp [jsonFirst] at h
  | cons a l =>
    simp only [jsonFirst, Body.row.injEq] at h
    subst h
    exact List.mem_cons_self _ _

namespace Table

variable {ρ : Type}

theorem deleteWhere_absent (key : ρ → Int) (id : Int) (t : Table ρ)
    (h : ∀ r ∈ t.rows, key r ≠ id) : t.deleteWhere key id = (⟨[], 0⟩, t) := by
  simp only [deleteWhere, filter_key_absent key id t.rows h,
    filter_key_ne_absent key id t.rows h, List.length_nil]

theorem deleteWhereReturning_absent (key : ρ → Int) (id : Int) (t : Table ρ)
    (h : ∀ r ∈ t.rows, key r ≠ id) : t.deleteWhereReturning key id = (⟨[], 0⟩, t) := by
  simp only [deleteWhereReturning, filter_key_absent key id t.rows h,
    filter_key_ne_absent key id t.rows h, List.length_nil]

theorem updateWhere_absent (key : ρ → Int) (id : Int) (set : ρ → ρ) (t : Table ρ)
    (h : ∀ r ∈ t.rows, key r ≠ id) : t.updateWhere key id set = (⟨[], 0⟩, t) := by
  simp only [updateWhere, filter_key_absent key id t.rows h,
    map_update_absent key id set t.rows h, List.length_nil]

theorem updateWhereReturning_absent (key : ρ → Int) (id : Int) (set : ρ → ρ) (t : Table ρ)
    (h : ∀ r ∈ t.rows, key r ≠ id) : t.updateWhereReturning key id set = (⟨[], 0⟩, t) := by
  simp only [updateWhereReturning, filter_key_absent key id t.rows h,
    map_update_absent key id set t.rows h, List.length_nil, List.map_nil]

theorem selectWhere_absent (key : ρ → Int) (id : Int) (t : Table ρ)
    (h : ∀ r ∈ t.rows, key r ≠ id) : t.selectWhere key id = ⟨[], 0⟩ := by
  simp only [selectWhere, filter_key_absent key id t.rows h, List.length_nil]

end Table

/-- A `DELETE` whose id matches no row deletes nothing and is not rejected. -/
theorem deleteInstituicao_absent (id : Int) (d : Db)
    (h : ∀ r ∈ d.instituicao.rows, r.id_instituicao ≠ id) :
    deleteInstituicao id d = .ok (⟨[], 0⟩, d) := by
  have hne : ¬ ∃ r ∈ d.instituicao.rows, r.id_instituicao = id := by
    rintro ⟨r, hr, hk⟩
    exact h r hr hk
  simp [deleteInstituicao, hne, Table.deleteWhere_absent _ _ _ h]

theorem deleteTipoCurso_absent (id : Int) (d : Db)
    (h : ∀ r ∈ d.tipo_curso.rows, r.id_tipo_curso ≠ id) :
    deleteTipoCurso id d = .ok (⟨[], 0⟩, d) := by
  have hne : ¬ ∃ r ∈ d.tipo_curso.rows, r.id_tipo_curso = id := by
    rintro ⟨r, hr, hk⟩
    exact h r hr hk
  simp [deleteTipoCurso, hne, Table.deleteWhereReturning_absent _ _ _ h]

theorem deleteCurso_absent (id : Int) (d : Db)
    (h : ∀ r ∈ d.curso.rows, r.id_curso ≠ id) :
    deleteCurso id d = .ok (⟨[], 0⟩, d) := by
  have hne : ¬ ∃ r ∈ d.curso.rows, r.id_curso = id := by
    rintro ⟨r, hr, hk⟩
    exact h r hr hk
  simp [deleteCurso, hne, Table.deleteWhereReturning_absent _ _ _ h]

/-- The delete handlers when the driver raises. -/
theorem instituicao_delete_some (id : Int) (m : String) (db : Db) :
    instituicao.delete id (some m) db
      = ⟨⟨500, .text m⟩, db, [.delete .instituicao id]⟩ := rfl

theorem tipo_curso_delete_some (id : Int) (m : String) (db : Db) :
    tipo_curso.delete id (some m) db
      = ⟨⟨500, .error "Erro ao remover tipo de curso"⟩, db, [.delete .tipo_curso id]⟩ := rfl

theorem curso_delete_some (id : Int) (m : String) (db : Db) :
    curso.delete id (some m) db
      = ⟨⟨500, .messageError "Erro ao remover curso" m⟩, db, [.delete .curso id]⟩ := rfl

/-- The delete handlers when the driver does not raise: the statement is
rejected for a referenced row, and otherwise the rows of the id are removed. -/
theorem instituicao_delete_none (id : Int) (db : Db) :
    instituicao.delete id none db
      = if (∃ r ∈ db.instituicao.rows, r.id_instituicao = id) ∧
            (∃ c ∈ db.curso.rows, c.id_instituicao = some id) then
          ⟨⟨500, .text foreignKeyViolation⟩, db, [.delete .instituicao id]⟩
        else if (db.instituicao.rows.filter (fun r => r.id_instituicao = id)).length = 0 then
          ⟨⟨404, .text "Instituição não encontrada"⟩,
            { db with instituicao := { db.instituicao with
                rows := db.instituicao.rows.filter (fun r => ¬ r.id_instituicao = id) } },
            [.delete .instituicao id]⟩
        else
          ⟨⟨204, .empty⟩,
            { db with instituicao := { db.instituicao with
                rows := db.instituicao.rows.filter (fun r => ¬ r.id_instituicao = id) } },
            [.delete .instituicao id]⟩ := by
  have hq : ∀ d : Db, queryChecked none (deleteInstituicao id) d = deleteInstituicao id d :=
    fun _ => rfl
  unfold instituicao.delete
  rw [hq]
  unfold deleteInstituicao
  split_ifs with hc h0
  · rfl
  · simp [Table.deleteWhere, h0]
  · simp [Table.deleteWhere, h0]

theorem tipo_curso_delete_none (id : Int) (db : Db) :
    tipo_curso.delete id none db
      = if (∃ r ∈ db.tipo_curso.rows, r.id_tipo_curso = id) ∧
            (∃ c ∈ db.curso.rows, c.id_tipo_curso = some id) then
          ⟨⟨500, .error "Erro ao remover tipo de curso"⟩, db, [.delete .tipo_curso id]⟩
        else if (db.tipo_curso.rows.filter (fun r => r.id_tipo_curso = id)).length = 0 then
          ⟨⟨404, .error "Tipo de curso não encontrado"⟩,
            { db with tipo_curso := { db.tipo_curso with
                rows := db.tipo_curso.rows.filter (fun r => ¬ r.id_tipo_curso = id) } },
            [.delete .tipo_curso id]⟩
        else
          ⟨⟨204, .empty⟩,
            { db with tipo_curso := { db.tipo_curso with
                rows := db.tipo_curso.rows.filter (fun r => ¬ r.id_tipo_curso = id) } },
            [.delete .tipo_curso id]⟩ := by
  have hq : ∀ d : Db, queryChecked none (deleteTipoCurso id) d = deleteTipoCurso id d :=
    fun _ => rfl
  unfold tipo_curso.delete
  rw [hq]
  unfold deleteTipoCurso
  split_ifs with hc h0
  · rfl
  · simp [Table.deleteWhereReturning, h0]
  · simp [Table.deleteWhereReturning, h0]

theorem curso_delete_none (id : Int) (db : Db) :
    curso.delete id none db
      = if (∃ r ∈ db.curso.rows, r.id_curso = id) ∧
            (∃ x ∈ db.disciplina.rows, x.id_curso = some id) then
          ⟨⟨500, .messageError "Erro ao remover curso" foreignKeyViolation⟩, db,
            [.delete .curso id]⟩
        else if (db.curso.rows.filter (fun r => r.id_curso = id)).length = 0 then
          ⟨⟨404, .message "Curso não encontrado"⟩,
            { db with curso := { db.curso with
                rows := db.curso.rows.filter (fun r => ¬ r.id_curso = id) } },
            [.delete .curso id]⟩
        else
          ⟨⟨200, .message "Curso removido com sucesso"⟩,
            { db with curso := { db.curso with
                rows := db.curso.rows.filter (fun r => ¬ r.id_curso = id) } },
            [.delete .curso id]⟩ := by
  have hq : ∀ d : Db, queryChecked none (deleteCurso id) d = deleteCurso id d :=
    fun _ => rfl
  unfold curso.delete
  rw [hq]
  unfold deleteCurso
  split_ifs with hc h0
  · rfl
  · simp [Table.deleteWhereReturning, h0]
  · simp [Table.deleteWhereReturning, h0]

/-! ## C1: delete of an id that matches no row -/

/-- C1, the claim as stated fails: with no institution at all, a `DELETE
/instituicoes/1` whose statement the driver rejects is answered 500, not 404. -/
theorem delete_absent_counterexample :
    (∀ r ∈ Db.empty.instituicao.rows, r.id_instituicao ≠ 1) ∧
    (instituicao.delete 1 (some "Connection terminated unexpectedly") Db.empty).res.status
      = 500 := by
  decide

/-- C1 as amended: for every database state and every id that matches no row
of the target table, the DELETE handlers of `/instituicoes/:id`,
`/tipocurso/:id` and `/cursos/:id` answer 404 when the statement runs and 500
when the driver rejects it, and in both cases the database afterwards is the
database before. -/
theorem delete_absent (db : Db) (id : Int) (fault : Fault) :
    ((∀ r ∈ db.instituicao.rows, r.id_instituicao ≠ id) →
      (instituicao.delete id fault db).res.status = (if fault.isSome then 500 else 404) ∧
      (instituicao.delete id fault db).db = db) ∧
    ((∀ r ∈ db.tipo_curso.rows, r.id_tipo_curso ≠ id) →
      (tipo_curso.delete id fault db).res.status = (if fault.isSome then 500 else 404) ∧
      (tipo_curso.delete id fault db).db = db) ∧
    ((∀ r ∈ db.curso.rows, r.id_curso ≠ id) →
      (curso.delete id fault db).res.status = (if fault.isSome then 500 else 404) ∧
      (curso.delete id fault db).db = db) := by
  refine ⟨fun h => ?_, fun h => ?_, fun h => ?_⟩
  · cases fault with
    | some m => simp [instituicao.delete]
    | none => simp [instituicao.delete, deleteInstituicao_absent _ _ h]
  · cases fault with
    | some m => simp [tipo_curso.delete]
    | none => simp [tipo_curso.delete, deleteTipoCurso_absent _ _ h]
  · cases fault with
    | some m => simp [curso.delete]
    | none => simp [curso.delete, deleteCurso_absent _ _ h]

/-- Witness of `delete_absent`: id 7 matches no row of the sample database. -/
theorem delete_absent_witness :
    ((instituicao.delete 7 none sampleDb).res.status = 404 ∧
      (instituicao.delete 7 none sampleDb).db = sampleDb) ∧
    ((tipo_curso.delete 7 none sampleDb).res.status = 404 ∧
      (tipo_curso.delete 7 none sampleDb).db = sampleDb) ∧
    ((curso.delete 7 none sampleDb).res.status = 404 ∧
      (curso.delete 7 none sampleDb).db = sampleDb) :=
  ⟨(delete_absent sampleDb 7 none).1 (by decide),
   (delete_absent sampleDb 7 none).2.1 (by decide),
   (delete_absent sampleDb 7 none).2.2 (by decide)⟩

/-! ## C2: update of an id that matches no row -/

/-- C2, the claim as stated fails: `PUT /tipocurso/7` with an empty body, where
no course type has id 7, is answered 400, not 404. -/
theorem put_absent_counterexample :
    (∀ r ∈ sampleDb.tipo_curso.rows, r.id_tipo_curso ≠ 7) ∧
    (tipo_curso.put 7 ⟨none⟩ none sampleDb).res.status = 400 := by
  decide

/-- C2 as amended: for every database state, every id that matches no row and
every body, `PUT /instituicoes/:id` answers 404 when its statement runs and 500
when the driver rejects it; `PUT /tipocurso/:id` answers 400 when
`tx_descricao` is absent or empty, and otherwise 404 when its statement runs
and 500 when the driver rejects it; in every case the database afterwards is
the database before. -/
theorem put_absent (db : Db) (id : Int) (fault1 fault2 : Fault)
    (bi : InstituicaoBody) (bt : TipoCursoBody) :
    ((∀ r ∈ db.instituicao.rows, r.id_instituicao ≠ id) →
      (instituicao.put id bi fault1 fault2 db).res.status
        = (if fault1.isSome then 500 else 404) ∧
      (instituicao.put id bi fault1 fault2 db).db = db) ∧
    ((∀ r ∈ db.tipo_curso.rows, r.id_tipo_curso ≠ id) →
      (tipo_curso.put id bt fault1 db).res.status
        = (if falsy bt.tx_descricao then 400 else if fault1.isSome then 500 else 404) ∧
      (tipo_curso.put id bt fault1 db).db = db) := by
  refine ⟨fun h => ?_, fun h => ?_⟩
  · cases fault1 with
    | some m => simp [instituicao.put]
    | none => simp [instituicao.put, Table.updateWhere_absent _ _ _ _ h]
  · by_cases hb : falsy bt.tx_descricao = true
    · simp [tipo_curso.put, hb]
    · cases fault1 with
      | some m => simp [tipo_curso.put, hb]
      | none => simp [tipo_curso.put, hb, Table.updateWhereReturning_absent _ _ _ _ h]

/-- Witness of `put_absent`: id 7 matches no row of the sample database. -/
theorem put_absent_witness :
    ((instituicao.put 7 ⟨some "UFBA", none⟩ none none sampleDb).res.status = 404 ∧
      (instituicao.put 7 ⟨some "UFBA", none⟩ none none sampleDb).db = sampleDb) ∧
    ((tipo_curso.put 7 ⟨some "Licenciatura"⟩ none sampleDb).res.status = 404 ∧
      (tipo_curso.put 7 ⟨some "Licenciatura"⟩ none sampleDb).db = sampleDb) :=
  ⟨(put_absent sampleDb 7 none none ⟨some "UFBA", none⟩ ⟨some "Licenciatura"⟩).1 (by decide),
   (put_absent sampleDb 7 none none ⟨some "UFBA", none⟩ ⟨some "Licenciatura"⟩).2 (by decide)⟩

/-! ## Lemmas on the aggregate statement -/

/-- The rows the join produces for one course. -/
theorem leftJoin_cons (c : Curso) (cs : List Curso) (ds : List Disciplina) :
    leftJoin (c :: cs) ds =
      (if (ds.filter (fun d => d.id_curso = some c.id_curso)).isEmpty then [(c, none)]
        else (ds.filter (fun d => d.id_curso = some c.id_curso)).map (fun d => (c, some d)))
      ++ leftJoin cs ds := by
  simp [leftJoin]

theorem leftJoin_nil (ds : List Disciplina) : leftJoin [] ds = [] := rfl

/-- Every joined row comes from a course of the table. -/
theorem mem_leftJoin_fst {cs : List Curso} {ds : List Disciplina}
    {j : Curso × Option Disciplina} (h : j ∈ leftJoin cs ds) : j.1 ∈ cs := by
  induction cs with
  | nil => simp [leftJoin_nil] at h
  | cons c cs ih =>
    rw [leftJoin_cons, List.mem_append] at h
    rcases h with h | h
    · split at h
      · simp at h; subst h; simp
      · simp at h; obtain ⟨d, _, rfl⟩ := h; simp
    · exact List.mem_cons_of_mem _ (ih h)

/-- Every course of the table has at least one joined row. -/
theorem exists_mem_leftJoin {cs : List Curso} (ds : List Disciplina) {c : Curso}
    (h : c ∈ cs) : ∃ o, (c, o) ∈ leftJoin cs ds := by
  induction cs with
  | nil => simp at h
  | cons a cs ih =>
    rcases List.mem_cons.1 h with rfl | h
    · rw [leftJoin_cons]
      by_cases he : (ds.filter (fun d => d.id_curso = some c.id_curso)).isEmpty = true
      · exact ⟨none, by simp [he]⟩
      · obtain ⟨d, hd⟩ : ∃ d, d ∈ ds.filter (fun d => d.id_curso = some c.id_curso) := by
          cases hl : ds.filter (fun d => d.id_curso = some c.id_curso) with
          | nil => simp [hl] at he
          | cons d _ => exact ⟨d, List.mem_cons_self _ _⟩
        refine ⟨some d, ?_⟩
        rw [if_neg he]
        exact List.mem_append_left _ (List.mem_map.2 ⟨d, hd, rfl⟩)
    · obtain ⟨o, ho⟩ := ih h
      exact ⟨o, by rw [leftJoin_cons]; exact List.mem_append_right _ ho⟩

/-- A joined row with a disciplina side is a course together with one of the
disciplinas that reference it. -/
theorem mem_leftJoin_some {cs : List Curso} {ds : List Disciplina} {c : Curso}
    {d : Disciplina} :
    (c, some d) ∈ leftJoin cs ds ↔ c ∈ cs ∧ d ∈ ds ∧ d.id_curso = some c.id_curso := by
  induction cs with
  | nil => simp [leftJoin_nil]
  | cons a cs ih =>
    rw [leftJoin_cons, List.mem_append, ih]
    constructor
    · rintro (h | h)
      · split at h
        · simp at h
        · simp at h
          obtain ⟨⟨hd, hid⟩, rfl⟩ := h
          exact ⟨List.mem_cons_self _ _, hd, hid⟩
      · exact ⟨List.mem_cons_of_mem _ h.1, h.2⟩
    · rintro ⟨hc, hd, hid⟩
      rcases List.mem_cons.1 hc with rfl | hc
      · left
        have hm : d ∈ ds.filter (fun d => d.id_curso = some c.id_curso) := by
          simp [hd, hid]
        have he : ¬ (ds.filter (fun d => d.id_curso = some c.id_curso)).isEmpty = true := by
          intro he
          rw [List.isEmpty_iff] at he
          rw [he] at hm
          simp at hm
        rw [if_neg he]
        exact List.mem_map.2 ⟨d, hm, rfl⟩
      · exact Or.inr ⟨hc, hd, hid⟩

/-- Counting over a disjunction of exclusive conditions. -/
theorem countP_or_of_disjoint {α : Type} (p q : α → Bool) (l : List α)
    (h : ∀ x ∈ l, ¬ (p x = true ∧ q x = true)) :
    l.countP (fun x => p x || q x) = l.countP p + l.countP q := by
  induction l with
  | nil => rfl
  | cons a l ih =>
    have ih2 := ih (fun x hx => h x (List.mem_cons_of_mem _ hx))
    have ha := h a (List.mem_cons_self _ _)
    rw [List.countP_cons, List.countP_cons p, List.countP_cons q, ih2]
    cases hp : p a <;> cases hq : q a <;> simp_all <;> omega

/-- With distinct course ids, the joined rows of the courses that satisfy `P`
and have a disciplina side are as many as the disciplinas that reference a
course satisfying `P`. -/
theorem countP_leftJoin (P : Curso → Bool) (cs : List Curso) (ds : List Disciplina)
    (hk : (cs.map (fun c => c.id_curso)).Nodup) :
    (leftJoin cs ds).countP (fun j => P j.1 && j.2.isSome)
      = ds.countP (fun d => decide (∃ c ∈ cs, P c = true ∧ d.id_curso = some c.id_curso)) := by
  induction cs with
  | nil => simp [leftJoin_nil]
  | cons a cs ih =>
    rw [List.map_cons, List.nodup_cons] at hk
    rw [leftJoin_cons, List.countP_append, ih hk.2]
    have hsplit : ds.countP (fun d =>
          decide (∃ c ∈ a :: cs, P c = true ∧ d.id_curso = some c.id_curso))
        = ds.countP (fun d => (P a && decide (d.id_curso = some a.id_curso))
            || decide (∃ c ∈ cs, P c = true ∧ d.id_curso = some c.id_curso)) := by
      congr 1
      funext d
      simp [Bool.decide_or]
    rw [hsplit, countP_or_of_disjoint]
    · congr 1
      by_cases he : (ds.filter (fun d => d.id_curso = some a.id_curso)).isEmpty = true
      · rw [if_pos he]
        rw [List.isEmpty_iff, List.filter_eq_nil_iff] at he
        have : ds.countP (fun d => P a && decide (d.id_curso = some a.id_curso)) = 0 := by
          rw [List.countP_eq_zero]
          intro d hd
          have := he d hd
          simp_all
        simp [this]
      · rw [if_neg he, List.countP_map]
        cases hP : P a
        · simp [Function.comp_def, hP]
        · simp [Function.comp_def, hP, List.countP_eq_length_filter]
    · intro d _ hpq
      simp only [Bool.and_eq_true, decide_eq_true_eq] at hpq
      obtain ⟨⟨_, h1⟩, c, hc, _, h2⟩ := hpq
      rw [h1] at h2
      have : a.id_curso = c.id_curso := Option.some.inj h2
      exact hk.1 (this ▸ List.mem_map.2 ⟨c, hc, rfl⟩)

/-- The descriptions of the grouped rows are the distinct descriptions of the
joined rows. -/
theorem map_curso_groupCount (js : List (Curso × Option Disciplina)) :
    (groupCount js).map (fun r => r.curso) = (js.map (fun j => j.1.tx_descricao)).dedup := by
  simp [groupCount, Function.comp_def]

/-- The count of a grouped row, as one count over the joined rows. -/
theorem mem_groupCount {js : List (Curso × Option Disciplina)} {r : Estatistica}
    (h : r ∈ groupCount js) :
    r.quantidade_disciplinas
      = js.countP (fun j => decide (j.1.tx_descricao = r.curso) && j.2.isSome) := by
  simp only [groupCount, List.mem_map] at h
  obtain ⟨k, _, rfl⟩ := h
  simp only [List.countP_filter, Option.isSome_map']
  congr 1
  funext j
  rw [Bool.and_comm]

/-- Ordering keeps the rows. -/
theorem orderDesc_perm (rs : List Estatistica) : (orderDesc rs).Perm rs :=
  List.perm_insertionSort _ rs

/-- The ordered rows are in non-increasing order of the count. -/
theorem orderDesc_sorted (rs : List Estatistica) :
    List.Sorted (fun a b => a ≥ b) ((orderDesc rs).map (fun r => r.quantidade_disciplinas)) := by
  haveI : IsTotal Estatistica (fun a b => b.quantidade_disciplinas ≤ a.quantidade_disciplinas) :=
    ⟨fun a b => le_total _ _⟩
  haveI : IsTrans Estatistica (fun a b => b.quantidade_disciplinas ≤ a.quantidade_disciplinas) :=
    ⟨fun _ _ _ hab hbc => le_trans hbc hab⟩
  have h := List.sorted_insertionSort
    (fun a b : Estatistica => b.quantidade_disciplinas ≤ a.quantidade_disciplinas) rs
  exact List.pairwise_map.2 h

/-- Summing per-key counts over a duplicate-free list of keys that holds every
key of the list gives the count over the whole list. -/
theorem sum_countP_keys {α κ : Type} [DecidableEq κ] (f : α → κ) (p : α → Bool)
    (ks : List κ) (hn : ks.Nodup) (l : List α) (hf : ∀ x ∈ l, f x ∈ ks) :
    (ks.map (fun k => l.countP (fun x => decide (f x = k) && p x))).sum = l.countP p := by
  induction l with
  | nil => simp
  | cons a l ih =>
    have ih2 := ih (fun x hx => hf x (List.mem_cons_of_mem _ hx))
    have ha : f a ∈ ks := hf a (List.mem_cons_self _ _)
    have hfun : (fun k => (a :: l).countP (fun x => decide (f x = k) && p x))
        = fun k => l.countP (fun x => decide (f x = k) && p x)
            + (if f a = k then (if p a then 1 else 0) else 0) := by
      funext k
      rw [List.countP_cons]
      by_cases h : f a = k <;> simp [h]
    rw [hfun, List.sum_map_add, ih2, List.countP_cons]
    congr 1
    have hcount : ∀ (ks : List κ), ks.Nodup → f a ∈ ks →
        (ks.map (fun k => if f a = k then (if p a then 1 else 0) else 0)).sum
          = if p a then 1 else 0 := by
      intro ks
      induction ks with
      | nil => intro _ h; simp at h
      | cons k ks ihk =>
        intro hn hm
        rw [List.nodup_cons] at hn
        by_cases hk : f a = k
        · have hz : (ks.map (fun k => if f a = k then (if p a then 1 else 0) else 0)).sum = 0 := by
            apply List.sum_eq_zero
            intro x hx
            obtain ⟨k2, hk2, rfl⟩ := List.mem_map.1 hx
            have : f a ≠ k2 := fun h => hn.1 (hk ▸ h ▸ hk2)
            simp [this]
          rw [List.map_cons, List.sum_cons, hz, if_pos hk, Nat.add_zero]
        · have hm2 : f a ∈ ks := by
            rcases List.mem_cons.1 hm with h | h
            · exact absurd h hk
            · exact h
          simp [hk, ihk hn.2 hm2]
    exact hcount ks hn ha

/-- The aggregate handler, when its statement runs, answers 200 with the
ordered grouped rows and changes nothing. -/
theorem estatisticas_none (db : Db) :
    disciplinas.estatisticas none db
      = ⟨⟨200, .rows (orderDesc (groupCount (leftJoin db.curso.rows db.disciplina.rows)))⟩,
          db, [.estatisticas]⟩ := by
  simp [disciplinas.estatisticas, estatisticasQuery]

/-- The descriptions of the grouped rows are distinct. -/
theorem nodup_curso_groupCount (js : List (Curso × Option Disciplina)) :
    ((groupCount js).map (fun r => r.curso)).Nodup := by
  rw [map_curso_groupCount]
  exact List.nodup_dedup _

/-- A description has a grouped row exactly when a course carries it. -/
theorem mem_map_curso_groupCount (cs : List Curso) (ds : List Disciplina) (k : Option String) :
    k ∈ (groupCount (leftJoin cs ds)).map (fun r => r.curso)
      ↔ ∃ c ∈ cs, c.tx_descricao = k := by
  rw [map_curso_groupCount, List.mem_dedup, List.mem_map]
  constructor
  · rintro ⟨j, hj, rfl⟩
    exact ⟨j.1, mem_leftJoin_fst hj, rfl⟩
  · rintro ⟨c, hc, rfl⟩
    obtain ⟨o, ho⟩ := exists_mem_leftJoin ds hc
    exact ⟨(c, o), ho, rfl⟩

/-! ## C3: courses without disciplinas in the aggregate -/

/-- C3, on the code: in the sample database course 2 has no disciplina and
carries the description of course 1, which has two. The aggregate handler
answers with one row for that description, with count 2, and one row for the
third course, with count 0: no row reports course 2 with count 0, although the
swagger block of the handler documents the count of disciplinas per course. -/
theorem estatisticas_same_descricao :
    (⟨2, some 2, some 1, some "Sistemas"⟩ : Curso) ∈ sampleDb.curso.rows ∧
    (∀ d ∈ sampleDb.disciplina.rows, d.id_curso ≠ some 2) ∧
    (disciplinas.estatisticas none sampleDb).res
      = ⟨200, .rows [⟨some "Sistemas", 2⟩, ⟨some "Redes", 0⟩]⟩ ∧
    ¬ ∃ r ∈ [(⟨some "Sistemas", 2⟩ : Estatistica), ⟨some "Redes", 0⟩],
        r.curso = some "Sistemas" ∧ r.quantidade_disciplinas = 0 := by
  decide

/-! ## C4: the aggregate result -/

/-- C4: when the statement runs and course ids are distinct (`id_curso` is
the primary key), the aggregate handler answers 200 with exactly one row per
distinct course description; the count of a row is the number of disciplina
rows whose `id_curso` is the id of a course with that description; the rows
are in non-increasing order of the count; and the counts sum to the number of
disciplina rows that reference an existing course. -/
theorem estatisticas_spec (db : Db) (hk : (db.curso.rows.map (fun c => c.id_curso)).Nodup) :
    ∃ rs, disciplinas.estatisticas none db = ⟨⟨200, .rows rs⟩, db, [.estatisticas]⟩ ∧
      (rs.map (fun r => r.curso)).Nodup ∧
      (∀ k, k ∈ rs.map (fun r => r.curso) ↔ ∃ c ∈ db.curso.rows, c.tx_descricao = k) ∧
      (∀ r ∈ rs, r.quantidade_disciplinas = (db.disciplina.rows.filter (fun d =>
        decide (∃ c ∈ db.curso.rows,
          c.tx_descricao = r.curso ∧ d.id_curso = some c.id_curso))).length) ∧
      List.Sorted (fun a b => a ≥ b) (rs.map (fun r => r.quantidade_disciplinas)) ∧
      (rs.map (fun r => r.quantidade_disciplinas)).sum = (db.disciplina.rows.filter (fun d =>
        decide (∃ c ∈ db.curso.rows, d.id_curso = some c.id_curso))).length := by
  have hperm := orderDesc_perm (groupCount (leftJoin db.curso.rows db.disciplina.rows))
  refine ⟨_, estatisticas_none db, ?_, ?_, ?_, orderDesc_sorted _, ?_⟩
  · exact ((hperm.map _).nodup_iff).2 (nodup_curso_groupCount _)
  · intro k
    rw [(hperm.map _).mem_iff]
    exact mem_map_curso_groupCount _ _ _
  · intro r hr
    rw [mem_groupCount (hperm.mem_iff.1 hr),
      countP_leftJoin (fun c => decide (c.tx_descricao = r.curso)) _ _ hk,
      List.countP_eq_length_filter]
    simp
  · rw [(hperm.map _).sum_eq]
    have hq : (groupCount (leftJoin db.curso.rows db.disciplina.rows)).map
          (fun r => r.quantidade_disciplinas)
        = ((leftJoin db.curso.rows db.disciplina.rows).map (fun j => j.1.tx_descricao)).dedup.map
          (fun k => (leftJoin db.curso.rows db.disciplina.rows).countP
            (fun j => decide (j.1.tx_descricao = k) && j.2.isSome)) := by
      simp only [groupCount, List.map_map]
      apply List.map_congr_left
      intro k _
      simp only [Function.comp_def, List.countP_filter, Option.isSome_map']
      congr 1
      funext j
      rw [Bool.and_comm]
    rw [hq, sum_countP_keys (fun j : Curso × Option Disciplina => j.1.tx_descricao)
      (fun j => j.2.isSome) _ (List.nodup_dedup _) _
      (fun j hj => List.mem_dedup.2 (List.mem_map.2 ⟨j, hj, rfl⟩))]
    have h := countP_leftJoin (fun _ => true) db.curso.rows db.disciplina.rows hk
    simp only [Bool.true_and, true_and] at h
    rw [h, List.countP_eq_length_filter]

/-- Witness of `estatisticas_spec`: the course ids of the sample database are
distinct. -/
theorem estatisticas_spec_witness :
    ∃ rs, disciplinas.estatisticas none sampleDb = ⟨⟨200, .rows rs⟩, sampleDb, [.estatisticas]⟩ ∧
      (rs.map (fun r => r.curso)).Nodup ∧
      (∀ k, k ∈ rs.map (fun r => r.curso) ↔ ∃ c ∈ sampleDb.curso.rows, c.tx_descricao = k) ∧
      (∀ r ∈ rs, r.quantidade_disciplinas = (sampleDb.disciplina.rows.filter (fun d =>
        decide (∃ c ∈ sampleDb.curso.rows,
          c.tx_descricao = r.curso ∧ d.id_curso = some c.id_curso))).length) ∧
      List.Sorted (fun a b => a ≥ b) (rs.map (fun r => r.quantidade_disciplinas)) ∧
      (rs.map (fun r => r.quantidade_disciplinas)).sum = (sampleDb.disciplina.rows.filter (fun d =>
        decide (∃ c ∈ sampleDb.curso.rows, d.id_curso = some c.id_curso))).length :=
  estatisticas_spec sampleDb (by decide)

/-! ## C5: failures of a statement -/

/-- C5, the claim as stated fails: when the driver rejects the statement of
`GET /tipocurso`, the body is the fixed object of the handler and does not
carry the message of the driver. -/
theorem failure_body_counterexample :
    (tipo_curso.getAll (some "connect ECONNREFUSED 127.0.0.1:5432") Db.empty).stmts
      = [.selectOrdered .tipo_curso] ∧
    (tipo_curso.getAll (some "connect ECONNREFUSED 127.0.0.1:5432") Db.empty).res
      = ⟨500, .error "Erro ao buscar tipos de curso"⟩ ∧
    (tipo_curso.getAll (some "connect ECONNREFUSED 127.0.0.1:5432") Db.empty).res.body.carries
      "connect ECONNREFUSED 127.0.0.1:5432" = false := by
  decide

/-- C5 as amended: for every handler and every failure `m` raised by a
statement it sent (the first statement, or the second one after the first
ran), the response has status 500; the body carries `m` for the handlers of
instituicao, curso, disciplinas (list, create, create in a course), alunos,
professores and cursa, and is a fixed body that does not depend on `m` for the
handlers of tipo_curso and the aggregate handler. -/
theorem failure_response (call : Call) (fault1 fault2 : Fault) (db : Db) (m : String)
    (hraise : (fault1 = some m ∧ (handle call fault1 fault2 db).stmts ≠ []) ∨
      (fault1 = none ∧ fault2 = some m ∧ (handle call fault1 fault2 db).stmts.length = 2)) :
    (handle call fault1 fault2 db).res.status = 500 ∧
    (call.sendsErrMessage = true → (handle call fault1 fault2 db).res.body.carries m = true) ∧
    (call.sendsErrMessage = false →
      ∀ m2, (handle call (some m2) fault2 db).res.body
        = (handle call fault1 fault2 db).res.body) := by
  rcases hraise with ⟨rfl, h⟩ | ⟨rfl, rfl, h⟩
  · cases call <;>
      simp [handle, Outcome.map, Body.map, Body.carries, Call.sendsErrMessage,
        instituicao.getAll, instituicao.getById, instituicao.post, instituicao.put,
        tipo_curso.getAll, tipo_curso.getById, tipo_curso.post,
        tipo_curso.put, curso.getAll, curso.post, curso_delete_some, curso_delete_none,
        instituicao_delete_some, instituicao_delete_none, tipo_curso_delete_some,
        tipo_curso_delete_none,
        disciplinas.getAll, disciplinas.post, disciplinas.estatisticas, disciplinas.postCurso,
        alunos.getAll, alunos.post, professores.getAll, professores.post, cursa.post] at h ⊢
    all_goals (split_ifs at h ⊢ <;> simp_all [Body.carries, Body.map])
  · cases call <;>
      simp [handle, Outcome.map, Body.map, Body.carries, Call.sendsErrMessage,
        instituicao.getAll, instituicao.getById, instituicao.post, instituicao.put,
        tipo_curso.getAll, tipo_curso.getById, tipo_curso.post,
        tipo_curso.put, curso.getAll, curso.post, curso_delete_some, curso_delete_none,
        instituicao_delete_some, instituicao_delete_none, tipo_curso_delete_some,
        tipo_curso_delete_none,
        disciplinas.getAll, disciplinas.post, disciplinas.estatisticas, disciplinas.postCurso,
        alunos.getAll, alunos.post, professores.getAll, professores.post, cursa.post] at h ⊢
    all_goals (split_ifs at h ⊢ <;> simp_all [Body.carries, Body.map])

/-- Witness of `failure_response`: the second statement of
`PUT /instituicoes/1` is rejected after the first ran. -/
theorem failure_response_witness :
    (handle (.instituicao_put 1 ⟨some "USP", none⟩) none (some "timeout") sampleDb).res.status
      = 500 ∧
    (Call.sendsErrMessage (.instituicao_put 1 ⟨some "USP", none⟩) = true →
      (handle (.instituicao_put 1 ⟨some "USP", none⟩) none (some "timeout")
        sampleDb).res.body.carries "timeout" = true) ∧
    (Call.sendsErrMessage (.instituicao_put 1 ⟨some "USP", none⟩) = false →
      ∀ m2, (handle (.instituicao_put 1 ⟨some "USP", none⟩) (some m2) (some "timeout")
          sampleDb).res.body
        = (handle (.instituicao_put 1 ⟨some "USP", none⟩) none (some "timeout")
          sampleDb).res.body) :=
  failure_response (.instituicao_put 1 ⟨some "USP", none⟩) none (some "timeout") sampleDb
    "timeout" (Or.inr ⟨rfl, rfl, by decide⟩)

/-! ## C6: get by id -/

/-- C6, the claim as stated fails: institution 1 is stored, and
`GET /instituicoes/1` is answered 500 when the driver rejects the statement. -/
theorem getById_counterexample :
    (∃ r ∈ sampleDb.instituicao.rows, r.id_instituicao = 1) ∧
    (instituicao.getById 1 (some "Connection terminated unexpectedly") sampleDb).res.status
      = 500 := by
  decide

/-- C6 as amended: for every database state and every id, the get-by-id
handlers of `/instituicoes/:id` and `/tipocurso/:id` answer, when the statement
runs, 200 with a stored row whose primary key equals id if such a row exists
and 404 if it does not; they answer 500 when the driver rejects the statement;
and whatever the driver does, a row they send is a stored row whose primary
key equals id. -/
theorem getById_spec (db : Db) (id : Int) :
    (((∃ r ∈ db.instituicao.rows, r.id_instituicao = id) →
        ∃ r ∈ db.instituicao.rows, r.id_instituicao = id ∧
          (instituicao.getById id none db).res = ⟨200, .row r⟩) ∧
      ((∀ r ∈ db.instituicao.rows, r.id_instituicao ≠ id) →
        (instituicao.getById id none db).res.status = 404) ∧
      (∀ m, (instituicao.getById id (some m) db).res.status = 500) ∧
      (∀ fault r, (instituicao.getById id fault db).res.body = .row r →
        r ∈ db.instituicao.rows ∧ r.id_instituicao = id)) ∧
    (((∃ r ∈ db.tipo_curso.rows, r.id_tipo_curso = id) →
        ∃ r ∈ db.tipo_curso.rows, r.id_tipo_curso = id ∧
          (tipo_curso.getById id none db).res = ⟨200, .row r⟩) ∧
      ((∀ r ∈ db.tipo_curso.rows, r.id_tipo_curso ≠ id) →
        (tipo_curso.getById id none db).res.status = 404) ∧
      (∀ m, (tipo_curso.getById id (some m) db).res.status = 500) ∧
      (∀ fault r, (tipo_curso.getById id fault db).res.body = .row r →
        r ∈ db.tipo_curso.rows ∧ r.id_tipo_curso = id)) := by
  refine ⟨⟨fun h => ?_, fun h => ?_, fun m => ?_, fun fault r hb => ?_⟩,
    ⟨fun h => ?_, fun h => ?_, fun m => ?_, fun fault r hb => ?_⟩⟩
  · obtain ⟨r, rest, hf, hr, hk⟩ := filter_key_present (fun r => r.id_instituicao) id _ h
    exact ⟨r, hr, hk, by simp [instituicao.getById, Table.selectWhere, hf, jsonFirst]⟩
  · simp [instituicao.getById, Table.selectWhere_absent _ _ _ h]
  · simp [instituicao.getById]
  · cases fault with
    | some m => simp [instituicao.getById] at hb
    | none =>
      simp only [instituicao.getById, query_none, Table.selectWhere] at hb
      split_ifs at hb with h0
      have := jsonFirst_eq_row hb
      rw [List.mem_filter] at this
      exact ⟨this.1, by simpa using this.2⟩
  · obtain ⟨r, rest, hf, hr, hk⟩ := filter_key_present (fun r => r.id_tipo_curso) id _ h
    exact ⟨r, hr, hk, by simp [tipo_curso.getById, Table.selectWhere, hf, jsonFirst]⟩
  · simp [tipo_curso.getById, Table.selectWhere_absent _ _ _ h]
  · simp [tipo_curso.getById]
  · cases fault with
    | some m => simp [tipo_curso.getById] at hb
    | none =>
      simp only [tipo_curso.getById, query_none, Table.selectWhere] at hb
      split_ifs at hb with h0
      have := jsonFirst_eq_row hb
      rw [List.mem_filter] at this
      exact ⟨this.1, by simpa using this.2⟩

/-- Witness of `getById_spec`: id 2 is stored in both tables of the sample
database and id 7 in neither. -/
theorem getById_spec_witness :
    ((∃ r ∈ sampleDb.instituicao.rows, r.id_instituicao = 2 ∧
        (instituicao.getById 2 none sampleDb).res = ⟨200, .row r⟩) ∧
      (instituicao.getById 7 none sampleDb).res.status = 404) ∧
    ((∃ r ∈ sampleDb.tipo_curso.rows, r.id_tipo_curso = 2 ∧
        (tipo_curso.getById 2 none sampleDb).res = ⟨200, .row r⟩) ∧
      (tipo_curso.getById 7 none sampleDb).res.status = 404) :=
  ⟨⟨(getById_spec sampleDb 2).1.1 (by decide), (getById_spec sampleDb 7).1.2.1 (by decide)⟩,
   ⟨(getById_spec sampleDb 2).2.1 (by decide), (getById_spec sampleDb 7).2.2.1 (by decide)⟩⟩

/-! ## C7: list handlers -/

/-- The rows of `ORDER BY key` are in ascending order of the key. -/
theorem selectOrderBy_sorted {ρ : Type} (key : ρ → Int) (t : Table ρ) :
    List.Sorted (fun a b => a ≤ b) ((t.selectOrderBy key).rows.map key) := by
  haveI : IsTotal ρ (fun a b => key a ≤ key b) := ⟨fun a b => le_total _ _⟩
  haveI : IsTrans ρ (fun a b => key a ≤ key b) := ⟨fun _ _ _ hab hbc => le_trans hab hbc⟩
  exact List.pairwise_map.2 (List.sorted_insertionSort (fun a b : ρ => key a ≤ key b) t.rows)

/-- The rows of `ORDER BY key` are the rows of the table. -/
theorem selectOrderBy_perm {ρ : Type} (key : ρ → Int) (t : Table ρ) :
    (t.selectOrderBy key).rows.Perm t.rows :=
  List.perm_insertionSort _ t.rows

/-- C7, the claim as stated fails: `GET /instituicoes` is answered 500 when the
driver rejects the statement. -/
theorem list_counterexample :
    (instituicao.getAll (some "Connection terminated unexpectedly") sampleDb).res
      = ⟨500, .text "Connection terminated unexpectedly"⟩ := by
  decide

/-- C7 as amended: for every database state, every list handler (`GET /` of
instituicoes, tipocurso, cursos, disciplinas, alunos, professores) answers,
when its statement runs, 200 with exactly the rows of its table and leaves the
database as it was, the rows of instituicoes and tipocurso being in ascending
order of the primary key; when the driver rejects the statement it answers
500. -/
theorem list_spec (db : Db) :
    (∃ rs, instituicao.getAll none db = ⟨⟨200, .rows rs⟩, db, [.selectOrdered .instituicao]⟩ ∧
      rs.Perm db.instituicao.rows ∧
      List.Sorted (fun a b => a ≤ b) (rs.map (fun r => r.id_instituicao))) ∧
    (∃ rs, tipo_curso.getAll none db = ⟨⟨200, .rows rs⟩, db, [.selectOrdered .tipo_curso]⟩ ∧
      rs.Perm db.tipo_curso.rows ∧
      List.Sorted (fun a b => a ≤ b) (rs.map (fun r => r.id_tipo_curso))) ∧
    (∃ rs, curso.getAll none db = ⟨⟨200, .rows rs⟩, db, [.select .curso]⟩ ∧
      rs.Perm db.curso.rows) ∧
    (∃ rs, disciplinas.getAll none db = ⟨⟨200, .rows rs⟩, db, [.select .disciplina]⟩ ∧
      rs.Perm db.disciplina.rows) ∧
    (∃ rs, alunos.getAll none db = ⟨⟨200, .rows rs⟩, db, [.select .aluno]⟩ ∧
      rs.Perm db.aluno.rows) ∧
    (∃ rs, professores.getAll none db = ⟨⟨200, .rows rs⟩, db, [.select .professor]⟩ ∧
      rs.Perm db.professor.rows) ∧
    (∀ m, (instituicao.getAll (some m) db).res.status = 500 ∧
      (tipo_curso.getAll (some m) db).res.status = 500 ∧
      (curso.getAll (some m) db).res.status = 500 ∧
      (disciplinas.getAll (some m) db).res.status = 500 ∧
      (alunos.getAll (some m) db).res.status = 500 ∧
      (professores.getAll (some m) db).res.status = 500) := by
  refine ⟨⟨(db.instituicao.selectOrderBy Instituicao.id_instituicao).rows, rfl,
      selectOrderBy_perm _ _, selectOrderBy_sorted _ _⟩,
    ⟨(db.tipo_curso.selectOrderBy TipoCurso.id_tipo_curso).rows, rfl,
      selectOrderBy_perm _ _, selectOrderBy_sorted _ _⟩,
    ⟨db.curso.rows, rfl, List.Perm.refl _⟩,
    ⟨db.disciplina.rows, rfl, List.Perm.refl _⟩,
    ⟨db.aluno.rows, rfl, List.Perm.refl _⟩,
    ⟨db.professor.rows, rfl, List.Perm.refl _⟩, fun m => ?_⟩
  simp [instituicao.getAll, tipo_curso.getAll, curso.getAll, disciplinas.getAll,
    alunos.getAll, professores.getAll]

/-! ## C8: creates -/

/-- The `INSERT` of a consistent table yields a new row with a fresh key. -/
theorem insertReturning_created {ρ : Type} (key : ρ → Int) (mk : Int → ρ)
    (hmk : ∀ i, key (mk i) = i) (t : Table ρ) (hwf : t.WF key) :
    Created key t (t.insertReturning mk).2 ⟨201, jsonFirst (t.insertReturning mk).1.rows⟩ := by
  refine ⟨mk ((t.lastId + 1 : Nat) : Int), rfl, rfl, ?_, ?_, ?_, ?_⟩
  · rw [hmk]; exact_mod_cast Nat.succ_pos _
  · rw [hmk]
    intro h
    have := (hwf.1 _ h).2
    have h2 : ((t.lastId + 1 : Nat) : Int) = (t.lastId : Int) + 1 := by push_cast; rfl
    omega
  · intro r2 hr2 heq
    rw [hmk] at heq
    have := (hwf.1 _ (hwf.2.1 r2 hr2)).2
    have h2 : ((t.lastId + 1 : Nat) : Int) = (t.lastId : Int) + 1 := by push_cast; rfl
    omega
  · simp [Table.insertReturning, hmk]

/-- C8: in a database whose tables are consistent with their sequences, every
create request that the database accepts (for `POST /tipocurso` one that
passes the check of `tx_descricao`, for `POST /disciplinas/curso/:cursoId` one
whose course exists) is answered 201 with the inserted row; the table
afterwards is the table before plus exactly that row and the other tables are
as before; the generated id of the row is positive and differs from every id
the sequence of the table issued before and from the id of every stored row.
The handler of `routes/cursa.js`, whose table has no generated id, answers 201
with the row of the body and appends it to its table. -/
theorem create_spec (db : Db) (hwf : db.WF) :
    (∀ body, Created (fun r => r.id_instituicao) db.instituicao
        (instituicao.post body none db).db.instituicao (instituicao.post body none db).res ∧
      (instituicao.post body none db).db
        = { db with instituicao := (instituicao.post body none db).db.instituicao }) ∧
    (∀ body, falsy body.tx_descricao = false →
      Created (fun r => r.id_tipo_curso) db.tipo_curso
        (tipo_curso.post body none db).db.tipo_curso (tipo_curso.post body none db).res ∧
      (tipo_curso.post body none db).db
        = { db with tipo_curso := (tipo_curso.post body none db).db.tipo_curso }) ∧
    (∀ body, Created (fun r => r.id_curso) db.curso
        (curso.post body none db).db.curso (curso.post body none db).res ∧
      (curso.post body none db).db = { db with curso := (curso.post body none db).db.curso }) ∧
    (∀ body, Created (fun r => r.id_disciplina) db.disciplina
        (disciplinas.post body none db).db.disciplina (disciplinas.post body none db).res ∧
      (disciplinas.post body none db).db
        = { db with disciplina := (disciplinas.post body none db).db.disciplina }) ∧
    (∀ cursoId body, (∃ c ∈ db.curso.rows, c.id_curso = cursoId) →
      Created (fun r => r.id_disciplina) db.disciplina
        (disciplinas.postCurso cursoId body none none db).db.disciplina
        (disciplinas.postCurso cursoId body none none db).res ∧
      (disciplinas.postCurso cursoId body none none db).db
        = { db with disciplina := (disciplinas.postCurso cursoId body none none db).db.disciplina }) ∧
    (∀ body, Created (fun r => r.id_aluno) db.aluno
        (alunos.post body none db).db.aluno (alunos.post body none db).res ∧
      (alunos.post body none db).db = { db with aluno := (alunos.post body none db).db.aluno }) ∧
    (∀ body, Created (fun r => r.id_professor) db.professor
        (professores.post body none db).db.professor (professores.post body none db).res ∧
      (professores.post body none db).db
        = { db with professor := (professores.post body none db).db.professor }) ∧
    (∀ body, cursa.post body none db
        = ⟨⟨201, .row body⟩, { db with cursa := db.cursa ++ [body] }, [.insert .cursa]⟩) := by
  obtain ⟨h1, h2, h3, h4, h5, h6⟩ := hwf
  refine ⟨fun body => ⟨?_, rfl⟩, fun body hb => ?_, fun body => ⟨?_, rfl⟩,
    fun body => ⟨?_, rfl⟩, fun cursoId body hc => ?_, fun body => ⟨?_, rfl⟩,
    fun body => ⟨?_, rfl⟩, fun body => rfl⟩
  · exact insertReturning_created _ _ (fun _ => rfl) _ h1
  · simp only [tipo_curso.post, hb, Bool.false_eq_true, if_false, query_none]
    exact ⟨insertReturning_created _ _ (fun _ => rfl) _ h2, trivial⟩
  · exact insertReturning_created _ _ (fun _ => rfl) _ h3
  · exact insertReturning_created _ _ (fun _ => rfl) _ h4
  · obtain ⟨r, rest, hf, _, _⟩ := filter_key_present (fun c : Curso => c.id_curso) cursoId _ hc
    simp only [disciplinas.postCurso, query_none, Table.selectWhere, hf, List.length_cons,
      Nat.add_one_ne_zero, if_false]
    exact ⟨insertReturning_created _ _ (fun _ => rfl) _ h4, trivial⟩
  · exact insertReturning_created _ _ (fun _ => rfl) _ h5
  · exact insertReturning_created _ _ (fun _ => rfl) _ h6

/-- Witness of `create_spec`: the sample database is consistent. -/
theorem create_spec_witness :
    Created (fun r => r.id_instituicao) sampleDb.instituicao
      (instituicao.post ⟨some "UFBA", some "Universidade Federal da Bahia"⟩ none
        sampleDb).db.instituicao
      (instituicao.post ⟨some "UFBA", some "Universidade Federal da Bahia"⟩ none sampleDb).res ∧
    Created (fun r => r.id_tipo_curso) sampleDb.tipo_curso
      (tipo_curso.post ⟨some "Licenciatura"⟩ none sampleDb).db.tipo_curso
      (tipo_curso.post ⟨some "Licenciatura"⟩ none sampleDb).res ∧
    Created (fun r => r.id_disciplina) sampleDb.disciplina
      (disciplinas.postCurso 3 ⟨none, some 1, some "RC", some "Redes de Computadores", some 1,
        some 60⟩ none none sampleDb).db.disciplina
      (disciplinas.postCurso 3 ⟨none, some 1, some "RC", some "Redes de Computadores", some 1,
        some 60⟩ none none sampleDb).res :=
  ⟨((create_spec sampleDb (by decide)).1 _).1,
   ((create_spec sampleDb (by decide)).2.1 _ (by decide)).1,
   ((create_spec sampleDb (by decide)).2.2.2.2.1 3 _ (by decide)).1⟩

/-! ## C9: delete of an id that matches a row -/

/-- With distinct keys, removing the rows of one stored key removes one row. -/
theorem length_filter_key_ne {ρ : Type} (key : ρ → Int) (id : Int) (rows : List ρ)
    (hn : (rows.map key).Nodup) (h : ∃ r ∈ rows, key r = id) :
    (rows.filter (fun r => decide (¬ key r = id))).length + 1 = rows.length := by
  induction rows with
  | nil => simp at h
  | cons a l ih =>
    rw [List.map_cons, List.nodup_cons] at hn
    by_cases ha : key a = id
    · have habs : ∀ r ∈ l, key r ≠ id := by
        intro r hr heq
        exact hn.1 (List.mem_map.2 ⟨r, hr, heq.trans ha.symm⟩)
      have hl := filter_key_ne_absent key id l habs
      simp only [List.filter_cons, ha, not_true_eq_false, decide_False, Bool.false_eq_true,
        if_false, List.length_cons]
      rw [hl]
    · obtain ⟨r, hr, hk⟩ := h
      have hr2 : r ∈ l := by
        rcases List.mem_cons.1 hr with rfl | hr2
        · exact absurd hk ha
        · exact hr2
      have := ih hn.2 ⟨r, hr2, hk⟩
      simp only [List.filter_cons, ha, not_false_eq_true, decide_True, if_true,
        List.length_cons]
      omega

/-- The `DELETE` statements remove the rows of the key. -/
theorem removed_filter {ρ : Type} (key : ρ → Int) (id : Int) (t : Table ρ)
    (h : ∃ r ∈ t.rows, key r = id) :
    Removed key id t { t with rows := t.rows.filter (fun r => ¬ key r = id) } := by
  refine ⟨rfl, fun r => ?_, fun hn => length_filter_key_ne key id t.rows hn h⟩
  simp [List.mem_filter]

/-- C9: for every database state and every id that matches a row, the `DELETE`
statement succeeds when the driver raises nothing and no row of another table
references the row (a course for an institution or a course type, a disciplina
for a course). Then `DELETE /instituicoes/:id` and `DELETE /tipocurso/:id`
answer 204 with an empty body and `DELETE /cursos/:id` answers 200 with the
message `Curso removido com sucesso`; the target table loses the row with that
id and keeps every other row, and every other table is as before. When a row
of another table references the row, the database rejects the statement: the
handler answers 500 and the database is as before. -/
theorem delete_present (db : Db) (id : Int) :
    ((∃ r ∈ db.instituicao.rows, r.id_instituicao = id) →
      ((∀ c ∈ db.curso.rows, c.id_instituicao ≠ some id) →
        (instituicao.delete id none db).res = ⟨204, .empty⟩ ∧
        Removed (fun r => r.id_instituicao) id db.instituicao
          (instituicao.delete id none db).db.instituicao ∧
        (instituicao.delete id none db).db
          = { db with instituicao := (instituicao.delete id none db).db.instituicao }) ∧
      ((∃ c ∈ db.curso.rows, c.id_instituicao = some id) → ∀ fault,
        (instituicao.delete id fault db).res.status = 500 ∧
        (instituicao.delete id fault db).db = db)) ∧
    ((∃ r ∈ db.tipo_curso.rows, r.id_tipo_curso = id) →
      ((∀ c ∈ db.curso.rows, c.id_tipo_curso ≠ some id) →
        (tipo_curso.delete id none db).res = ⟨204, .empty⟩ ∧
        Removed (fun r => r.id_tipo_curso) id db.tipo_curso
          (tipo_curso.delete id none db).db.tipo_curso ∧
        (tipo_curso.delete id none db).db
          = { db with tipo_curso := (tipo_curso.delete id none db).db.tipo_curso }) ∧
      ((∃ c ∈ db.curso.rows, c.id_tipo_curso = some id) → ∀ fault,
        (tipo_curso.delete id fault db).res.status = 500 ∧
        (tipo_curso.delete id fault db).db = db)) ∧
    ((∃ r ∈ db.curso.rows, r.id_curso = id) →
      ((∀ x ∈ db.disciplina.rows, x.id_curso ≠ some id) →
        (curso.delete id none db).res = ⟨200, .message "Curso removido com sucesso"⟩ ∧
        Removed (fun r => r.id_curso) id db.curso (curso.delete id none db).db.curso ∧
        (curso.delete id none db).db = { db with curso := (curso.delete id none db).db.curso }) ∧
      ((∃ x ∈ db.disciplina.rows, x.id_curso = some id) → ∀ fault,
        (curso.delete id fault db).res.status = 500 ∧
        (curso.delete id fault db).db = db)) := by
  refine ⟨fun h => ⟨fun hfree => ?_, fun href fault => ?_⟩,
    fun h => ⟨fun hfree => ?_, fun href fault => ?_⟩,
    fun h => ⟨fun hfree => ?_, fun href fault => ?_⟩⟩
  · obtain ⟨r, rest, hf, _, _⟩ := filter_key_present (fun r => r.id_instituicao) id _ h
    have hrem := removed_filter (fun r => r.id_instituicao) id db.instituicao h
    have hno : ¬ ∃ c ∈ db.curso.rows, c.id_instituicao = some id := by
      rintro ⟨c, hc, hk⟩
      exact hfree c hc hk
    rw [instituicao_delete_none, if_neg (fun hc => hno hc.2), hf]
    exact ⟨rfl, hrem, rfl⟩
  · cases fault with
    | some m => exact ⟨rfl, rfl⟩
    | none =>
      rw [instituicao_delete_none, if_pos ⟨h, href⟩]
      exact ⟨rfl, rfl⟩
  · obtain ⟨r, rest, hf, _, _⟩ := filter_key_present (fun r => r.id_tipo_curso) id _ h
    have hrem := removed_filter (fun r => r.id_tipo_curso) id db.tipo_curso h
    have hno : ¬ ∃ c ∈ db.curso.rows, c.id_tipo_curso = some id := by
      rintro ⟨c, hc, hk⟩
      exact hfree c hc hk
    rw [tipo_curso_delete_none, if_neg (fun hc => hno hc.2), hf]
    exact ⟨rfl, hrem, rfl⟩
  · cases fault with
    | some m => exact ⟨rfl, rfl⟩
    | none =>
      rw [tipo_curso_delete_none, if_pos ⟨h, href⟩]
      exact ⟨rfl, rfl⟩
  · obtain ⟨r, rest, hf, _, _⟩ := filter_key_present (fun r => r.id_curso) id _ h
    have hrem := removed_filter (fun r => r.id_curso) id db.curso h
    have hno : ¬ ∃ x ∈ db.disciplina.rows, x.id_curso = some id := by
      rintro ⟨x, hx, hk⟩
      exact hfree x hx hk
    rw [curso_delete_none, if_neg (fun hc => hno hc.2), hf]
    exact ⟨rfl, hrem, rfl⟩
  · cases fault with
    | some m => exact ⟨rfl, rfl⟩
    | none =>
      rw [curso_delete_none, if_pos ⟨h, href⟩]
      exact ⟨rfl, rfl⟩

/-- Witness of `delete_present`: institution 3, course type 3 and course 3 of
the second sample database are stored and no row references them; institution
1 is referenced by course 1. -/
theorem delete_present_witness :
    ((instituicao.delete 3 none sampleDb2).res = ⟨204, .empty⟩ ∧
      Removed (fun r => r.id_instituicao) 3 sampleDb2.instituicao
        (instituicao.delete 3 none sampleDb2).db.instituicao) ∧
    ((tipo_curso.delete 3 none sampleDb2).res = ⟨204, .empty⟩ ∧
      Removed (fun r => r.id_tipo_curso) 3 sampleDb2.tipo_curso
        (tipo_curso.delete 3 none sampleDb2).db.tipo_curso) ∧
    ((curso.delete 3 none sampleDb2).res = ⟨200, .message "Curso removido com sucesso"⟩ ∧
      Removed (fun r => r.id_curso) 3 sampleDb2.curso (curso.delete 3 none sampleDb2).db.curso) ∧
    ((instituicao.delete 1 none sampleDb2).res.status = 500 ∧
      (instituicao.delete 1 none sampleDb2).db = sampleDb2) :=
  ⟨⟨(((delete_present sampleDb2 3).1 (by decide)).1 (by decide)).1,
    (((delete_present sampleDb2 3).1 (by decide)).1 (by decide)).2.1⟩,
   ⟨(((delete_present sampleDb2 3).2.1 (by decide)).1 (by decide)).1,
    (((delete_present sampleDb2 3).2.1 (by decide)).1 (by decide)).2.1⟩,
   ⟨(((delete_present sampleDb2 3).2.2 (by decide)).1 (by decide)).1,
    (((delete_present sampleDb2 3).2.2 (by decide)).1 (by decide)).2.1⟩,
   ((delete_present sampleDb2 1).1 (by decide)).2 (by decide) none⟩

/-! ## C10: the status codes -/

/-- A `DELETE` that the database rejects for a referenced row is answered like
any other failure of the statement: 500, with the message of the database in
the body for institutions and courses, and the fixed text for course types. -/
theorem delete_rejected (db : Db) (id : Int) :
    ((∃ r ∈ db.instituicao.rows, r.id_instituicao = id) →
      (∃ c ∈ db.curso.rows, c.id_instituicao = some id) →
      instituicao.delete id none db
        = ⟨⟨500, .text foreignKeyViolation⟩, db, [.delete .instituicao id]⟩) ∧
    ((∃ r ∈ db.tipo_curso.rows, r.id_tipo_curso = id) →
      (∃ c ∈ db.curso.rows, c.id_tipo_curso = some id) →
      tipo_curso.delete id none db
        = ⟨⟨500, .error "Erro ao remover tipo de curso"⟩, db, [.delete .tipo_curso id]⟩) ∧
    ((∃ r ∈ db.curso.rows, r.id_curso = id) →
      (∃ x ∈ db.disciplina.rows, x.id_curso = some id) →
      curso.delete id none db
        = ⟨⟨500, .messageError "Erro ao remover curso" foreignKeyViolation⟩, db,
            [.delete .curso id]⟩) := by
  refine ⟨fun h href => ?_, fun h href => ?_, fun h href => ?_⟩
  · rw [instituicao_delete_none, if_pos ⟨h, href⟩]
  · rw [tipo_curso_delete_none, if_pos ⟨h, href⟩]
  · rw [curso_delete_none, if_pos ⟨h, href⟩]

set_option maxHeartbeats 1600000 in
/-- C10: status 400 is produced by exactly two handlers, `POST /tipocurso` and
`PUT /tipocurso/:id`, exactly when the check `!tx_descricao` of the body holds,
which it does when the field is missing; in that case no statement is sent and
the database is as before; every status of every handler is one of 200, 201,
204, 400, 404 and 500, so every other error response has status 404 or 500. -/
theorem status_400 (call : Call) (fault1 fault2 : Fault) (db : Db) :
    ((handle call fault1 fault2 db).res.status = 400 ↔
      (∃ body, call = .tipo_curso_post body ∧ falsy body.tx_descricao = true) ∨
      (∃ id body, call = .tipo_curso_put id body ∧ falsy body.tx_descricao = true)) ∧
    ((handle call fault1 fault2 db).res.status = 400 →
      (handle call fault1 fault2 db).stmts = [] ∧ (handle call fault1 fault2 db).db = db) ∧
    ((handle call fault1 fault2 db).res.status ∈ [200, 201, 204, 400, 404, 500]) ∧
    (handle (.tipo_curso_post ⟨none⟩) fault1 fault2 db).res.status = 400 ∧
    (∀ id, (handle (.tipo_curso_put id ⟨none⟩) fault1 fault2 db).res.status = 400) := by
  refine ⟨?_, ?_, ?_, rfl, fun _ => rfl⟩
  · cases call <;> cases fault1 <;> cases fault2 <;>
      simp [handle, Outcome.map, instituicao.getAll, instituicao.getById, instituicao.post,
        instituicao.put, tipo_curso.getAll, tipo_curso.getById,
        tipo_curso.post, tipo_curso.put, curso.getAll, curso.post,
        curso_delete_some, curso_delete_none, disciplinas.getAll, disciplinas.post, disciplinas.estatisticas,
        instituicao_delete_some, instituicao_delete_none, tipo_curso_delete_some,
        tipo_curso_delete_none,
        disciplinas.postCurso, alunos.getAll, alunos.post, professores.getAll,
        professores.post, cursa.post] <;>
      split_ifs <;> simp_all
    all_goals exact ⟨_, _, ⟨rfl, rfl⟩, by assumption⟩
  · cases call <;> cases fault1 <;> cases fault2 <;>
      simp [handle, Outcome.map, instituicao.getAll, instituicao.getById, instituicao.post,
        instituicao.put, tipo_curso.getAll, tipo_curso.getById,
        tipo_curso.post, tipo_curso.put, curso.getAll, curso.post,
        curso_delete_some, curso_delete_none, disciplinas.getAll, disciplinas.post, disciplinas.estatisticas,
        instituicao_delete_some, instituicao_delete_none, tipo_curso_delete_some,
        tipo_curso_delete_none,
        disciplinas.postCurso, alunos.getAll, alunos.post, professores.getAll,
        professores.post, cursa.post] <;>
      split_ifs <;> simp_all
  · cases call <;> cases fault1 <;> cases fault2 <;>
      simp [handle, Outcome.map, instituicao.getAll, instituicao.getById, instituicao.post,
        instituicao.put, tipo_curso.getAll, tipo_curso.getById,
        tipo_curso.post, tipo_curso.put, curso.getAll, curso.post,
        curso_delete_some, curso_delete_none, disciplinas.getAll, disciplinas.post, disciplinas.estatisticas,
        instituicao_delete_some, instituicao_delete_none, tipo_curso_delete_some,
        tipo_curso_delete_none,
        disciplinas.postCurso, alunos.getAll, alunos.post, professores.getAll,
        professores.post, cursa.post] <;>
      split_ifs <;> simp_all

/-! ## Consistency is kept by every handler -/

/-- The empty database is consistent. -/
theorem Db.WF_empty : Db.empty.WF := by
  simp [Db.WF, Table.WF, Db.empty, Table.empty]

namespace Table

variable {ρ : Type}

theorem WF_insertReturning (key : ρ → Int) (mk : Int → ρ) (hmk : ∀ i, key (mk i) = i)
    (t : Table ρ) (h : t.WF key) : (t.insertReturning mk).2.WF key := by
  obtain ⟨h1, h2, h3⟩ := h
  have hcast : ((t.lastId + 1 : Nat) : Int) = (t.lastId : Int) + 1 := by push_cast; rfl
  refine ⟨fun i hi => ?_, fun r hr => ?_, ?_⟩
  · rcases List.mem_cons.1 hi with rfl | hi
    · constructor
      · exact_mod_cast Nat.succ_pos _
      · exact le_refl _
    · have := h1 i hi
      simp only [insertReturning]
      constructor
      · exact this.1
      · rw [hcast]; omega
  · rcases List.mem_append.1 hr with hr | hr
    · exact List.mem_cons_of_mem _ (h2 r hr)
    · rw [List.mem_singleton] at hr
      subst hr
      rw [hmk]
      exact List.mem_cons_self _ _
  · simp only [insertReturning, List.map_append, List.map_cons, List.map_nil, hmk]
    rw [List.nodup_append]
    refine ⟨h3, List.nodup_singleton _, ?_⟩
    intro a ha hb
    rw [List.mem_singleton] at hb
    subst hb
    obtain ⟨r, hr, hk⟩ := List.mem_map.1 ha
    have := (h1 _ (h2 r hr)).2
    rw [hk, hcast] at this
    omega

theorem WF_filter (key : ρ → Int) (p : ρ → Bool) (t : Table ρ) (h : t.WF key) :
    Table.WF key { t with rows := t.rows.filter p } := by
  obtain ⟨h1, h2, h3⟩ := h
  exact ⟨h1, fun r hr => h2 r (List.mem_filter.1 hr).1,
    h3.sublist ((List.filter_sublist _).map key)⟩

theorem WF_map (key : ρ → Int) (f : ρ → ρ) (hf : ∀ r, key (f r) = key r) (t : Table ρ)
    (h : t.WF key) : Table.WF key { t with rows := t.rows.map f } := by
  obtain ⟨h1, h2, h3⟩ := h
  have hmap : (t.rows.map f).map key = t.rows.map key := by
    rw [List.map_map]
    exact List.map_congr_left (fun r _ => hf r)
  refine ⟨h1, fun r hr => ?_, ?_⟩
  · obtain ⟨r0, hr0, rfl⟩ := List.mem_map.1 hr
    rw [hf]
    exact h2 r0 hr0
  · show ((t.rows.map f).map key).Nodup
    rw [hmap]
    exact h3

end Table

/-- Every handler takes a consistent database to a consistent database. -/
theorem handle_WF (call : Call) (fault1 fault2 : Fault) (db : Db) (h : db.WF) :
    (handle call fault1 fault2 db).db.WF := by
  obtain ⟨h1, h2, h3, h4, h5, h6⟩ := h
  cases call <;> cases fault1 <;> cases fault2 <;>
    simp only [handle, Outcome.map, instituicao.getAll, instituicao.getById, instituicao.post,
      instituicao.put, tipo_curso.getAll, tipo_curso.getById,
      tipo_curso.post, tipo_curso.put, curso.getAll, curso.post,
      curso_delete_some, curso_delete_none, disciplinas.getAll, disciplinas.post, disciplinas.estatisticas,
      instituicao_delete_some, instituicao_delete_none, tipo_curso_delete_some,
      tipo_curso_delete_none,
      disciplinas.postCurso, alunos.getAll, alunos.post, professores.getAll,
      professores.post, cursa.post, query_none, query_some, Table.deleteWhere,
      Table.deleteWhereReturning, Table.updateWhere, Table.updateWhereReturning] <;>
    (try split_ifs) <;>
    refine ⟨?_, ?_, ?_, ?_, ?_, ?_⟩ <;>
    (try dsimp only) <;>
    first
    | assumption
    | (refine Table.WF_insertReturning _ _ ?_ _ ?_ <;> first | assumption | exact fun _ => rfl)
    | (refine Table.WF_filter _ _ _ ?_; assumption)
    | (refine Table.WF_map _ _ ?_ _ ?_ <;>
        first | assumption | (intro r; split_ifs <;> rfl))

/-! ## C14: create of a disciplina in a course -/

/-- C14, the claim as stated fails: no course has id 7, and
`POST /disciplinas/curso/7` is answered 500 when the driver rejects the
`SELECT` of the course. -/
theorem postCurso_counterexample :
    (∀ c ∈ sampleDb.curso.rows, c.id_curso ≠ 7) ∧
    (disciplinas.postCurso 7 ⟨none, some 1, some "RC", some "Redes de Computadores", some 1,
      some 60⟩ (some "Connection terminated unexpectedly") none sampleDb).res.status = 500 := by
  decide

/-- C14 as amended: for every database state, when no course has id `cursoId`,
`POST /disciplinas/curso/:cursoId` sends only the `SELECT` of the course,
answers 404 when it runs and 500 when the driver rejects it, and leaves the
database as it was; when the course exists and both statements run, it answers
201 with the new disciplina, which is appended to the table, whose `id_curso`
is the path parameter `cursoId` whatever `id_curso` the body carries, and whose
other columns are those of the body. -/
theorem postCurso_spec (db : Db) (cursoId : Int) (body : DisciplinaBody) :
    ((∀ c ∈ db.curso.rows, c.id_curso ≠ cursoId) → ∀ fault1 fault2,
      (disciplinas.postCurso cursoId body fault1 fault2 db).res.status
        = (if fault1.isSome then 500 else 404) ∧
      (disciplinas.postCurso cursoId body fault1 fault2 db).db = db ∧
      (disciplinas.postCurso cursoId body fault1 fault2 db).stmts
        = [.selectById .curso cursoId]) ∧
    ((∃ c ∈ db.curso.rows, c.id_curso = cursoId) →
      ∃ d : Disciplina,
        (disciplinas.postCurso cursoId body none none db).res = ⟨201, .row d⟩ ∧
        d.id_curso = some cursoId ∧
        d = ⟨(db.disciplina.lastId + 1 : Nat), some cursoId, body.id_tipo_disciplina,
          body.tx_sigla, body.tx_descricao, body.in_periodo, body.in_carga_horaria⟩ ∧
        (disciplinas.postCurso cursoId body none none db).db.disciplina.rows
          = db.disciplina.rows ++ [d] ∧
        (disciplinas.postCurso cursoId body none none db).db
          = { db with
              disciplina := (disciplinas.postCurso cursoId body none none db).db.disciplina }) := by
  refine ⟨fun h fault1 fault2 => ?_, fun h => ?_⟩
  · cases fault1 with
    | some m => simp [disciplinas.postCurso]
    | none => simp [disciplinas.postCurso, Table.selectWhere_absent _ _ _ h]
  · obtain ⟨r, rest, hf, _, _⟩ := filter_key_present (fun c : Curso => c.id_curso) cursoId _ h
    refine ⟨⟨(db.disciplina.lastId + 1 : Nat), some cursoId, body.id_tipo_disciplina,
      body.tx_sigla, body.tx_descricao, body.in_periodo, body.in_carga_horaria⟩, ?_, rfl, rfl,
      ?_, ?_⟩ <;>
    simp [disciplinas.postCurso, Table.selectWhere, hf, Table.insertReturning, jsonFirst]

/-- Witness of `postCurso_spec`: course 7 is not stored in the sample database
and course 3 is; the body asks for course 1. -/
theorem postCurso_spec_witness :
    ((disciplinas.postCurso 7 ⟨some 1, some 1, some "RC", none, none, none⟩ none none
        sampleDb).res.status = 404 ∧
      (disciplinas.postCurso 7 ⟨some 1, some 1, some "RC", none, none, none⟩ none none
        sampleDb).db = sampleDb) ∧
    (∃ d : Disciplina,
      (disciplinas.postCurso 3 ⟨some 1, some 1, some "RC", none, none, none⟩ none none
        sampleDb).res = ⟨201, .row d⟩ ∧ d.id_curso = some 3) :=
  ⟨⟨((postCurso_spec sampleDb 7 ⟨some 1, some 1, some "RC", none, none, none⟩).1 (by decide)
      none none).1,
    ((postCurso_spec sampleDb 7 ⟨some 1, some 1, some "RC", none, none, none⟩).1 (by decide)
      none none).2.1⟩,
   (((postCurso_spec sampleDb 3 ⟨some 1, some 1, some "RC", none, none, none⟩).2
      (by decide)).imp fun _ hd => ⟨hd.1, hd.2.1⟩)⟩

/-! ## C15: update of an institution that exists -/

/-- An `UPDATE` that keeps the key changes exactly the rows the `WHERE`
selects. -/
theorem filter_map_update {ρ : Type} (key : ρ → Int) (id : Int) (set : ρ → ρ)
    (hset : ∀ r, key (set r) = key r) (rows : List ρ) :
    (rows.map (fun r => if key r = id then set r else r)).filter (fun r => decide (key r = id))
      = (rows.filter (fun r => decide (key r = id))).map set := by
  induction rows with
  | nil => rfl
  | cons a l ih =>
    by_cases ha : key a = id
    · have hsa : key (set a) = id := (hset a).trans ha
      simp [List.filter_cons, ha, hsa, ih]
    · simp [List.filter_cons, ha, ih]

/-- C15: for every database state, every id that matches a row and every body,
a `PUT /instituicoes/:id` whose two statements run answers 200 with the row of
that id, in which `tx_sigla` and `tx_descricao` are the values of the body (a
field absent from the body is null); in the table the rows of that id carry
the values of the body and keep their id, every other row is as before, the
order and the ids of the rows are as before, and every other table is as
before. -/
theorem put_present (db : Db) (id : Int) (body : InstituicaoBody)
    (h : ∃ r ∈ db.instituicao.rows, r.id_instituicao = id) :
    (instituicao.put id body none none db).res
      = ⟨200, .row ⟨id, body.tx_sigla, body.tx_descricao⟩⟩ ∧
    (instituicao.put id body none none db).db.instituicao.rows
      = db.instituicao.rows.map (fun r =>
          if r.id_instituicao = id then ⟨r.id_instituicao, body.tx_sigla, body.tx_descricao⟩
          else r) ∧
    (∀ r, r.id_instituicao ≠ id →
      (r ∈ (instituicao.put id body none none db).db.instituicao.rows
        ↔ r ∈ db.instituicao.rows)) ∧
    (∀ r ∈ (instituicao.put id body none none db).db.instituicao.rows,
      r.id_instituicao = id → r = ⟨id, body.tx_sigla, body.tx_descricao⟩) ∧
    (instituicao.put id body none none db).db.instituicao.rows.map (fun r => r.id_instituicao)
      = db.instituicao.rows.map (fun r => r.id_instituicao) ∧
    (instituicao.put id body none none db).db
      = { db with instituicao :=
          { db.instituicao with
            rows := (instituicao.put id body none none db).db.instituicao.rows } } := by
  obtain ⟨r0, rest, hf, _, hk0⟩ :=
    filter_key_present (fun r : Instituicao => r.id_instituicao) id _ h
  have hfm := filter_map_update (fun r : Instituicao => r.id_instituicao) id
    (fun row => { row with tx_sigla := body.tx_sigla, tx_descricao := body.tx_descricao })
    (fun _ => rfl) db.instituicao.rows
  have hout : instituicao.put id body none none db
      = ⟨⟨200, .row ⟨id, body.tx_sigla, body.tx_descricao⟩⟩,
          { db with instituicao := { db.instituicao with rows := db.instituicao.rows.map (fun r =>
            if r.id_instituicao = id then ⟨r.id_instituicao, body.tx_sigla, body.tx_descricao⟩
            else r) } },
          [.update .instituicao id, .selectById .instituicao id]⟩ := by
    simp only [instituicao.put, query_none, Table.updateWhere, Table.selectWhere, hf,
      List.length_cons, Nat.add_one_ne_zero, if_false, hfm, List.map_cons, jsonFirst]
    simp [hk0]
  rw [hout]
  refine ⟨rfl, rfl, fun r hr => ?_, fun r hr hid => ?_, ?_, rfl⟩
  · simp only [List.mem_map]
    constructor
    · rintro ⟨a, ha, rfl⟩
      by_cases hai : a.id_instituicao = id
      · simp [hai] at hr
      · simpa [hai] using ha
    · intro hmem
      exact ⟨r, hmem, by simp [hr]⟩
  · simp only [List.mem_map] at hr
    obtain ⟨a, _, rfl⟩ := hr
    by_cases hai : a.id_instituicao = id
    · simp [hai]
    · simp [hai] at hid
  · simp only [List.map_map]
    apply List.map_congr_left
    intro a _
    by_cases hai : a.id_instituicao = id <;> simp [hai]

/-- Witness of `put_present`: institution 1 of the sample database, updated
with a body that has no `tx_descricao`. -/
theorem put_present_witness :
    (instituicao.put 1 ⟨some "UNESP", none⟩ none none sampleDb).res
      = ⟨200, .row ⟨1, some "UNESP", none⟩⟩ ∧
    (instituicao.put 1 ⟨some "UNESP", none⟩ none none sampleDb).db.instituicao.rows
      = [⟨1, some "UNESP", none⟩, ⟨2, some "UFS", some "Universidade Federal de Sergipe"⟩] :=
  ⟨(put_present sampleDb 1 ⟨some "UNESP", none⟩ (by decide)).1,
   (put_present sampleDb 1 ⟨some "UNESP", none⟩ (by decide)).2.1⟩

/-! ## C12: the statements of a request -/

/-- C12, the claim as stated fails: `PUT /instituicoes/1` on the sample database
sends two statements, and when the driver rejects the second one the answer is
500 although the `UPDATE` has changed the row. -/
theorem one_statement_counterexample :
    (instituicao.put 1 ⟨some "UNESP", none⟩ none (some "Connection terminated unexpectedly")
      sampleDb).stmts = [.update .instituicao 1, .selectById .instituicao 1] ∧
    (instituicao.put 1 ⟨some "UNESP", none⟩ none (some "Connection terminated unexpectedly")
      sampleDb).res.status = 500 ∧
    (instituicao.put 1 ⟨some "UNESP", none⟩ none (some "Connection terminated unexpectedly")
      sampleDb).db.instituicao.rows
      = [⟨1, some "UNESP", none⟩, ⟨2, some "UFS", some "Universidade Federal de Sergipe"⟩] ∧
    (instituicao.put 1 ⟨some "UNESP", none⟩ none (some "Connection terminated unexpectedly")
      sampleDb).db ≠ sampleDb := by
  decide

set_option maxHeartbeats 1600000 in
/-- C12 as amended: every handler sends at most two statements per request; it
sends none exactly when it answers 400; it sends two exactly when the first
statement runs and the request is a `PUT /instituicoes/:id` whose id matches a
row (`UPDATE`, then `SELECT`) or a `POST /disciplinas/curso/:cursoId` whose
course exists (`SELECT`, then `INSERT`); and a 500 response of a request that
sent one statement, or of any handler other than `PUT /instituicoes/:id`,
leaves the database as it was. -/
theorem statements_sent (call : Call) (fault1 fault2 : Fault) (db : Db) :
    (handle call fault1 fault2 db).stmts.length ≤ 2 ∧
    ((handle call fault1 fault2 db).stmts = [] ↔
      (handle call fault1 fault2 db).res.status = 400) ∧
    ((handle call fault1 fault2 db).stmts.length = 2 ↔
      fault1 = none ∧
      ((∃ id body, call = .instituicao_put id body ∧
          ∃ r ∈ db.instituicao.rows, r.id_instituicao = id) ∨
        (∃ cursoId body, call = .disciplinas_postCurso cursoId body ∧
          ∃ c ∈ db.curso.rows, c.id_curso = cursoId))) ∧
    ((handle call fault1 fault2 db).res.status = 500 →
      ((handle call fault1 fault2 db).stmts.length = 1 ∨
        ∀ id body, call ≠ .instituicao_put id body) →
      (handle call fault1 fault2 db).db = db) := by
  refine ⟨?_, ?_, ?_, ?_⟩
  · cases call <;> cases fault1 <;> cases fault2 <;>
      simp [handle, Outcome.map, instituicao.getAll, instituicao.getById, instituicao.post,
        instituicao.put, tipo_curso.getAll, tipo_curso.getById,
        tipo_curso.post, tipo_curso.put, curso.getAll, curso.post,
        curso_delete_some, curso_delete_none, disciplinas.getAll, disciplinas.post, disciplinas.estatisticas,
        instituicao_delete_some, instituicao_delete_none, tipo_curso_delete_some,
        tipo_curso_delete_none,
        disciplinas.postCurso, alunos.getAll, alunos.post, professores.getAll,
        professores.post, cursa.post] <;>
      split_ifs <;> simp_all
  · cases call <;> cases fault1 <;> cases fault2 <;>
      simp [handle, Outcome.map, instituicao.getAll, instituicao.getById, instituicao.post,
        instituicao.put, tipo_curso.getAll, tipo_curso.getById,
        tipo_curso.post, tipo_curso.put, curso.getAll, curso.post,
        curso_delete_some, curso_delete_none, disciplinas.getAll, disciplinas.post, disciplinas.estatisticas,
        instituicao_delete_some, instituicao_delete_none, tipo_curso_delete_some,
        tipo_curso_delete_none,
        disciplinas.postCurso, alunos.getAll, alunos.post, professores.getAll,
        professores.post, cursa.post] <;>
      split_ifs <;> simp_all
  · cases call <;> cases fault1 <;> cases fault2 <;>
      simp [handle, Outcome.map, instituicao.getAll, instituicao.getById, instituicao.post,
        instituicao.put, tipo_curso.getAll, tipo_curso.getById,
        tipo_curso.post, tipo_curso.put, curso.getAll, curso.post,
        curso_delete_some, curso_delete_none, disciplinas.getAll, disciplinas.post, disciplinas.estatisticas,
        instituicao_delete_some, instituicao_delete_none, tipo_curso_delete_some,
        tipo_curso_delete_none,
        disciplinas.postCurso, alunos.getAll, alunos.post, professores.getAll,
        professores.post, cursa.post, Table.updateWhere, Table.selectWhere] <;>
      split_ifs <;> simp_all
  · cases call <;> cases fault1 <;> cases fault2 <;>
      simp [handle, Outcome.map, instituicao.getAll, instituicao.getById, instituicao.post,
        instituicao.put, tipo_curso.getAll, tipo_curso.getById,
        tipo_curso.post, tipo_curso.put, curso.getAll, curso.post,
        curso_delete_some, curso_delete_none, disciplinas.getAll, disciplinas.post, disciplinas.estatisticas,
        instituicao_delete_some, instituicao_delete_none, tipo_curso_delete_some,
        tipo_curso_delete_none,
        disciplinas.postCurso, alunos.getAll, alunos.post, professores.getAll,
        professores.post, cursa.post] <;>
      split_ifs <;> simp_all

/-! ## C11: the required-field check on create -/

/-- A create handler answers 400 exactly when it is `POST /tipocurso` and the
check of `tx_descricao` holds. -/
theorem create_status_400 (call : Call) (fault1 fault2 : Fault) (db : Db)
    (hc : call.isCreate = true) :
    (handle call fault1 fault2 db).res.status = 400 ↔
      ∃ body, call = .tipo_curso_post body ∧ falsy body.tx_descricao = true := by
  cases call <;> simp [Call.isCreate] at hc <;> cases fault1 <;> cases fault2 <;>
    simp [handle, Outcome.map, instituicao.post, tipo_curso.post, curso.post,
      disciplinas.post, disciplinas.postCurso, alunos.post, professores.post, cursa.post] <;>
    split_ifs <;> simp_all

/-- C11, the claim as stated fails: there are no two create handlers of
distinct resources that can answer 400; the check exists for one resource. -/
theorem required_check_counterexample :
    ¬ ∃ c1 c2 : Call, c1.isCreate = true ∧ c2.isCreate = true ∧ c1.resource ≠ c2.resource ∧
        (∃ f1 f2 db, (handle c1 f1 f2 db).res.status = 400) ∧
        (∃ f1 f2 db, (handle c2 f1 f2 db).res.status = 400) := by
  rintro ⟨c1, c2, h1, h2, hne, ⟨f1, f2, db, hs1⟩, ⟨g1, g2, db2, hs2⟩⟩
  obtain ⟨b1, rfl, _⟩ := (create_status_400 c1 f1 f2 db h1).1 hs1
  obtain ⟨b2, rfl, _⟩ := (create_status_400 c2 g1 g2 db2 h2).1 hs2
  exact hne rfl

/-- C11 as amended: the required-field check that answers 400 on create exists
for one resource, tipocurso (a create handler answers 400 exactly when it is
`POST /tipocurso` and `tx_descricao` is absent or empty). For every other
resource a create is passed to the database whatever fields its body lacks: the
handler sends its `INSERT` (for `POST /disciplinas/curso/:cursoId`, after the
`SELECT` found the course), answers 500 if the database rejects it and 201
otherwise; so does `POST /tipocurso` when its check passes. -/
theorem create_missing_field (db : Db) (fault : Fault) :
    (∀ call f1 f2 d, Call.isCreate call = true →
      ((handle call f1 f2 d).res.status = 400 ↔
        ∃ body, call = .tipo_curso_post body ∧ falsy body.tx_descricao = true)) ∧
    (∀ body, (instituicao.post body fault db).stmts = [.insert .instituicao] ∧
      (instituicao.post body fault db).res.status = (if fault.isSome then 500 else 201)) ∧
    (∀ body, (curso.post body fault db).stmts = [.insert .curso] ∧
      (curso.post body fault db).res.status = (if fault.isSome then 500 else 201)) ∧
    (∀ body, (disciplinas.post body fault db).stmts = [.insert .disciplina] ∧
      (disciplinas.post body fault db).res.status = (if fault.isSome then 500 else 201)) ∧
    (∀ cursoId body, (∃ c ∈ db.curso.rows, c.id_curso = cursoId) →
      (disciplinas.postCurso cursoId body none fault db).stmts
        = [.selectById .curso cursoId, .insert .disciplina] ∧
      (disciplinas.postCurso cursoId body none fault db).res.status
        = (if fault.isSome then 500 else 201)) ∧
    (∀ body, (alunos.post body fault db).stmts = [.insert .aluno] ∧
      (alunos.post body fault db).res.status = (if fault.isSome then 500 else 201)) ∧
    (∀ body, (professores.post body fault db).stmts = [.insert .professor] ∧
      (professores.post body fault db).res.status = (if fault.isSome then 500 else 201)) ∧
    (∀ body, (cursa.post body fault db).stmts = [.insert .cursa] ∧
      (cursa.post body fault db).res.status = (if fault.isSome then 500 else 201)) ∧
    (∀ body, falsy body.tx_descricao = false →
      (tipo_curso.post body fault db).stmts = [.insert .tipo_curso] ∧
      (tipo_curso.post body fault db).res.status = (if fault.isSome then 500 else 201)) := by
  refine ⟨fun call f1 f2 d hc => create_status_400 call f1 f2 d hc, fun body => ?_,
    fun body => ?_, fun body => ?_, fun cursoId body h => ?_, fun body => ?_, fun body => ?_,
    fun body => ?_, fun body hb => ?_⟩
  · cases fault <;> simp [instituicao.post]
  · cases fault <;> simp [curso.post]
  · cases fault <;> simp [disciplinas.post]
  · obtain ⟨r, rest, hf, _, _⟩ := filter_key_present (fun c : Curso => c.id_curso) cursoId _ h
    cases fault <;> simp [disciplinas.postCurso, Table.selectWhere, hf]
  · cases fault <;> simp [alunos.post]
  · cases fault <;> simp [professores.post]
  · cases fault <;> simp [cursa.post]
  · cases fault <;> simp [tipo_curso.post, hb]

/-- Witness of `create_missing_field`: creates without a required field that
the database rejects, on the sample database. -/
theorem create_missing_field_witness :
    ((alunos.post ⟨none, some "F", some "2000-01-15"⟩
        (some "null value in column tx_nome violates not-null constraint") sampleDb).stmts
        = [.insert .aluno] ∧
      (alunos.post ⟨none, some "F", some "2000-01-15"⟩
        (some "null value in column tx_nome violates not-null constraint") sampleDb).res.status
        = 500) ∧
    ((disciplinas.postCurso 3 ⟨none, none, none, none, none, none⟩ none
        (some "null value in column tx_nome violates not-null constraint") sampleDb).stmts
        = [.selectById .curso 3, .insert .disciplina] ∧
      (disciplinas.postCurso 3 ⟨none, none, none, none, none, none⟩ none
        (some "null value in column tx_nome violates not-null constraint") sampleDb).res.status
        = 500) :=
  ⟨(create_missing_field sampleDb
      (some "null value in column tx_nome violates not-null constraint")).2.2.2.2.2.1 _,
   (create_missing_field sampleDb
      (some "null value in column tx_nome violates not-null constraint")).2.2.2.2.1 3 _
      (by decide)⟩

/-! ## C13: the routes mounted in index.js -/

/-- A module serves a request with one of the handlers it registers. -/
theorem dispatch_mem_routes {r : Router} {m : Method} {path : List String} {h : HandlerId}
    (hd : r.dispatch m path = some h) : h ∈ r.routes.map (fun x => x.2.2) := by
  simp only [Router.dispatch, Option.map_eq_some'] at hd
  obtain ⟨x, hx, rfl⟩ := hd
  exact List.mem_map.2 ⟨x, List.mem_of_find?_eq_some hx, rfl⟩

/-- The application serves a request only with a handler of a mounted
module. -/
theorem app_handler_mem_mounts {m : Method} {path : List String} {h : HandlerId}
    (ha : app m path = .handler h) :
    ∃ x ∈ mounts, h ∈ x.2.routes.map (fun y => y.2.2) := by
  cases path with
  | nil =>
    simp only [app] at ha
    split_ifs at ha
  | cons seg rest =>
    simp only [app] at ha
    split_ifs at ha
    cases hf : mounts.findSome?
        (fun x => if x.1 = seg then x.2.dispatch m rest else none) with
    | none => rw [hf] at ha; cases ha
    | some h2 =>
      rw [hf] at ha
      cases ha
      obtain ⟨x, hx, hx2⟩ := List.exists_of_findSome?_eq_some hf
      split_ifs at hx2
      exact ⟨x, hx, dispatch_mem_routes hx2⟩

/-- C13, on the code: no method and path is served by the create handler of
`routes/cursa.js`, which registers it for `POST /`; `index.js` mounts the six
other modules only, so `POST /cursa` matches no route, while the create
handlers of the six other entities are served. -/
theorem cursa_not_mounted :
    (∀ m path, app m path ≠ .handler .cursa_post) ∧
    app .POST ["cursa"] = .notFound ∧
    Router.dispatch .cursa .POST [] = some .cursa_post ∧
    (∀ body, Call.handlerId (.cursa_post body) = .cursa_post) ∧
    app .POST ["instituicoes"] = .handler .instituicao_post ∧
    app .POST ["tipocurso"] = .handler .tipo_curso_post ∧
    app .POST ["cursos"] = .handler .curso_post ∧
    app .POST ["disciplinas"] = .handler .disciplinas_post ∧
    app .POST ["alunos"] = .handler .alunos_post ∧
    app .POST ["professores"] = .handler .professores_post := by
  refine ⟨fun m path ha => ?_, by decide, by decide, fun _ => rfl, by decide, by decide,
    by decide, by decide, by decide, by decide⟩
  obtain ⟨x, hx, hmem⟩ := app_handler_mem_mounts ha
  have hall : ∀ x ∈ mounts, HandlerId.cursa_post ∉ x.2.routes.map (fun y => y.2.2) := by
    decide
  exact hall x hx hmem

end ApiP3
